import Mathlib

/-!
Verification development for the frame-connect sync subsystem.

Shallow embedding of:
* `SyncEngine.executeSync` (src/services/sync/SyncEngine.ts) with its helpers
  `getSyncedPhotos`, `recordSyncedPhoto`, `deleteSyncedPhoto`;
* `AdbService.getFileHash` and `AdbService.deleteFile`
  (src/services/adb/AdbService.ts);
* `SyncScheduler.triggerSync` (src/services/sync/SyncScheduler.ts).

Modelling conventions:
* The SQLite store (`sync_mappings`, `synced_photos`) is explicit state.
  `synced_photos` carries `UNIQUE(mapping_id, source_photo_id)` (schema.sql),
  so `INSERT OR REPLACE` is an upsert keyed by that pair.  Plain database
  statements are modelled as non-throwing state updates.
* The remote device storage is an association list from remote path to the
  content hash of the file stored there.  `adb push` writes the processed
  artifact, whose hash is the computed `fileHash`; `rm -f` removes the entry.
* External collaborators (source download, image processing, hashing, push
  transfer) are an environment assigning each photo the outcome of those
  calls for this run.  A `.error` value is a thrown exception; `pushFile`
  additionally has a resolved-with-`success:false` outcome, matching
  `AdbService.pushFile` which catches setup errors (returning success:false)
  but rejects on transfer errors.
* Temporary local artifacts are tracked as the list of files currently in
  the run's temp directory: `downloadPhoto` writes into tempDir,
  `createImageProcessor(tempDir)` writes processed files into tempDir, and
  the final `rm(tempDir, recursive)` clears it.
-/

namespace FrameConnect

/-- sync_mode column: 'mirror' | 'add_only'. -/
inductive SyncMode where
  | mirror
  | addOnly
deriving DecidableEq, Repr

/-- PhotoInfo as produced by a source (BaseSource.getPhotos). -/
structure PhotoInfo where
  id : String
  name : String
  path : String
deriving DecidableEq, Repr

/-- SyncMapping row (fields used by executeSync).  `maxPhotos` is
`row.max_photos ?? undefined`: absent or a count, modelled as `Option Nat`
(the stored column is an integer count of photos to keep). -/
structure SyncMapping where
  id : String
  sourceId : String
  deviceId : String
  syncMode : SyncMode
  maxPhotos : Option Nat
  isActive : Bool
deriving DecidableEq, Repr

/-- Result of ImageProcessor.processImage. -/
structure ProcessedImage where
  path : String
  size : Nat
  format : String
deriving DecidableEq, Repr

/-- synced_photos row. -/
structure SyncedPhoto where
  id : String
  mappingId : String
  sourcePhotoId : String
  sourcePath : String
  devicePath : String
  fileHash : String
  fileSize : Nat
deriving DecidableEq, Repr

/-- SyncResult (timestamps omitted: wall-clock time is not modelled). -/
structure SyncResult where
  mappingId : String
  success : Bool
  photosAdded : Nat
  photosRemoved : Nat
  photosSkipped : Nat
  errors : List String
deriving DecidableEq, Repr

/-- Mutable world the engine acts on: the synced_photos table, the device's
directory (remote path ↦ content hash of the stored file), the files in the
run's temp directory, and the generateId counter for fresh row ids. -/
structure EngineState where
  ledger : List SyncedPhoto
  device : List (String × String)
  tempFiles : List String
  nextRowId : Nat
deriving DecidableEq, Repr

/-- Hash of the remote file at a path, if one exists (the oracle behind
`adbService.getFileHash` when the transport is up). -/
def lookupFile : List (String × String) → String → Option String
  | [], _ => none
  | (p, h) :: rest, q => if p = q then some h else lookupFile rest q

/-- Effect of `adb push` on the device directory: the file at `p` now has
content hash `h`. -/
def setFile (files : List (String × String)) (p h : String) : List (String × String) :=
  (files.filter (fun e => e.fst ≠ p)) ++ [(p, h)]

/-- Effect of `rm -f p` on the device directory. -/
def removeFile (files : List (String × String)) (p : String) : List (String × String) :=
  files.filter (fun e => e.fst ≠ p)

/-- SyncEngine.getSyncedPhotos: SELECT * FROM synced_photos WHERE mapping_id = ?. -/
def getSyncedPhotos (st : EngineState) (mappingId : String) : List SyncedPhoto :=
  st.ledger.filter (fun sp => sp.mappingId = mappingId)

/-- SyncEngine.recordSyncedPhoto: INSERT OR REPLACE INTO synced_photos, an
upsert keyed by the UNIQUE(mapping_id, source_photo_id) constraint. -/
def recordSyncedPhoto (st : EngineState) (mappingId sourcePhotoId sourcePath devicePath fileHash : String)
    (fileSize : Nat) : EngineState :=
  let entry : SyncedPhoto :=
    { id := "row" ++ toString st.nextRowId
      mappingId := mappingId
      sourcePhotoId := sourcePhotoId
      sourcePath := sourcePath
      devicePath := devicePath
      fileHash := fileHash
      fileSize := fileSize }
  { st with
      ledger :=
        (st.ledger.filter (fun sp =>
          ¬ (sp.mappingId = mappingId ∧ sp.sourcePhotoId = sourcePhotoId))) ++ [entry]
      nextRowId := st.nextRowId + 1 }

/-- SyncEngine.deleteSyncedPhoto: DELETE FROM synced_photos WHERE id = ?. -/
def deleteSyncedPhoto (st : EngineState) (rowId : String) : EngineState :=
  { st with ledger := st.ledger.filter (fun sp => sp.id ≠ rowId) }

/-- ImageProcessor.cleanup: unlink the temp file inside try/catch with the
error ignored.  `ok` is whether the unlink succeeded: on success the file is
gone, on a swallowed failure it stays; either way nothing is reported. -/
def cleanupTemp (ok : Bool) (st : EngineState) (p : String) : EngineState :=
  { st with tempFiles := if ok then st.tempFiles.filter (fun q => q ≠ p) else st.tempFiles }

/-- A temp file comes into existence (download or processed output). -/
def addTemp (st : EngineState) (p : String) : EngineState :=
  { st with tempFiles := st.tempFiles ++ [p] }

/-- adb push succeeded: the device directory now stores the artifact. -/
def setDevice (st : EngineState) (p h : String) : EngineState :=
  { st with device := setFile st.device p h }

/-- Outcome of adbService.pushFile for one artifact: the returned promise
resolves `{success:true}`, resolves `{success:false, error}` (setup error
caught inside pushFile), or rejects (transfer error). -/
inductive PushOutcome where
  | success
  | failure (msg : String)
  | thrown (msg : String)
deriving Repr

/-- Outcomes of the external calls made for one photo in one run.
`Except.error` is a thrown exception, caught by the per-photo catch. -/
structure PhotoBehavior where
  download : Except String String
  process : Except String ProcessedImage
  hash : Except String String
  push : PushOutcome

/-- Everything executeSync consumes besides the EngineState: the resolved
mapping row, whether source and device records resolved, the device base
directory, the source listing (a thrown listing lands in the outer catch),
the per-photo collaborator outcomes, whether `rm -f` succeeds per remote
path (adbService.deleteFile returns false instead of throwing), whether
ImageProcessor.cleanup's unlink succeeds per temp path (its error is caught
and ignored), and whether the end-of-run `rm(tempDir, recursive, force)`
succeeds (its error is likewise caught and ignored). -/
structure SyncEnv where
  mapping : Option SyncMapping
  sourceFound : Bool
  deviceFound : Bool
  devicePath : String
  listPhotos : Except String (List PhotoInfo)
  behavior : PhotoInfo → PhotoBehavior
  deleteOk : String → Bool
  unlinkOk : String → Bool
  rmTempDirOk : Bool

/-- The deterministic remote path `<baseDir>/<hash>.<ext>` built in the loop:
`${device.devicePath}/${fileHash}.${processed.format}`. -/
def devPath (base fileHash fmt : String) : String :=
  base ++ "/" ++ fileHash ++ "." ++ fmt

/-- One iteration of the addition pass (the `for (const photo of photosToSync)`
body of executeSync, lines 436-493).  Faithful branch structure:
ledger skip; download/process/hash may throw (caught by the per-photo catch,
which records `Error processing <name>: <msg>` and does NOT clean up);
hash match on the device counts a skip and cleans up; otherwise push:
success records the ledger row and counts an add, resolved failure records
`Failed to push <name>: <err>`, both then clean up; a rejected push is
caught by the per-photo catch without cleanup. -/
def syncOnePhoto (env : SyncEnv) (base mappingId : String) (syncedPhotoIds : List String)
    (acc : SyncResult × EngineState) (photo : PhotoInfo) : SyncResult × EngineState :=
  let r := acc.1
  let st := acc.2
  if photo.id ∈ syncedPhotoIds then
    ({ r with photosSkipped := r.photosSkipped + 1 }, st)
  else
    let b := env.behavior photo
    match b.download with
    | Except.error msg =>
        ({ r with errors := r.errors ++ ["Error processing " ++ photo.name ++ ": " ++ msg] }, st)
    | Except.ok downloadedPath =>
      let st1 := addTemp st downloadedPath
      match b.process with
      | Except.error msg =>
          ({ r with errors := r.errors ++ ["Error processing " ++ photo.name ++ ": " ++ msg] }, st1)
      | Except.ok processed =>
        let st2 := addTemp st1 processed.path
        match b.hash with
        | Except.error msg =>
            ({ r with errors := r.errors ++ ["Error processing " ++ photo.name ++ ": " ++ msg] }, st2)
        | Except.ok fileHash =>
          let devicePath := devPath base fileHash processed.format
          if lookupFile st2.device devicePath = some fileHash then
            ({ r with photosSkipped := r.photosSkipped + 1 },
             cleanupTemp (env.unlinkOk processed.path)
               (cleanupTemp (env.unlinkOk downloadedPath) st2 downloadedPath) processed.path)
          else
            match b.push with
            | PushOutcome.thrown msg =>
                ({ r with errors := r.errors ++ ["Error processing " ++ photo.name ++ ": " ++ msg] }, st2)
            | PushOutcome.failure msg =>
                ({ r with errors := r.errors ++ ["Failed to push " ++ photo.name ++ ": " ++ msg] },
                 cleanupTemp (env.unlinkOk processed.path)
                   (cleanupTemp (env.unlinkOk downloadedPath) st2 downloadedPath) processed.path)
            | PushOutcome.success =>
                let st3 := setDevice st2 devicePath fileHash
                let st4 := recordSyncedPhoto st3 mappingId photo.id photo.path devicePath fileHash processed.size
                ({ r with photosAdded := r.photosAdded + 1 },
                 cleanupTemp (env.unlinkOk processed.path)
                   (cleanupTemp (env.unlinkOk downloadedPath) st4 downloadedPath) processed.path)

/-- One iteration of the mirror removal pass (lines 500-509).  The boolean
result of adbService.deleteFile is NOT inspected: the ledger row is deleted
and photosRemoved incremented either way.  The surrounding catch is
unreachable here because deleteFile catches its own failures (returning
false) and the DELETE statement is a plain database write. -/
def removeOneSynced (env : SyncEnv) (acc : SyncResult × EngineState) (synced : SyncedPhoto) :
    SyncResult × EngineState :=
  let r := acc.1
  let st := acc.2
  let st1 := if env.deleteOk synced.devicePath
             then { st with device := removeFile st.device synced.devicePath }
             else st
  let st2 := deleteSyncedPhoto st1 synced.id
  ({ r with photosRemoved := r.photosRemoved + 1 }, st2)

/-- The `mapping.maxPhotos ? sourcePhotos.slice(0, mapping.maxPhotos)
: sourcePhotos` truncation (lines 424-426), with JavaScript truthiness:
undefined and 0 are falsy, so only a strictly positive cap truncates. -/
def truncatePhotos (maxPhotos : Option Nat) (sourcePhotos : List PhotoInfo) : List PhotoInfo :=
  match maxPhotos with
  | none => sourcePhotos
  | some n => if n = 0 then sourcePhotos else sourcePhotos.take n

/-- The body of executeSync after mapping/source/device resolved (the outer
try block, lines 407-534): list photos (a throw lands in the outer catch,
skipping the temp-directory removal), truncate, snapshot the ledger, run the
addition pass, run the removal pass when syncMode is mirror (over the
snapshot, against the truncated id set), remove the temp directory —
best-effort: the rm sits in its own try/catch with the error ignored, so on
failure the temp files simply remain — and set success to whether the error
list is empty. -/
def runSync (env : SyncEnv) (mappingId : String) (syncMode : SyncMode) (maxPhotos : Option Nat)
    (r0 : SyncResult) (st : EngineState) : SyncResult × EngineState :=
  match env.listPhotos with
  | Except.error msg =>
      ({ r0 with errors := r0.errors ++ ["Sync failed: " ++ msg] }, st)
  | Except.ok sourcePhotos =>
    let photosToSync := truncatePhotos maxPhotos sourcePhotos
    let syncedPhotos := getSyncedPhotos st mappingId
    let syncedPhotoIds := syncedPhotos.map (fun sp => sp.sourcePhotoId)
    let afterAdd := photosToSync.foldl (syncOnePhoto env env.devicePath mappingId syncedPhotoIds) (r0, st)
    let afterRemove :=
      if syncMode = SyncMode.mirror then
        let sourcePhotoIds : List String := photosToSync.map (fun p => p.id)
        let toRemove := syncedPhotos.filter (fun sp => decide (¬ sp.sourcePhotoId ∈ sourcePhotoIds))
        toRemove.foldl (removeOneSynced env) afterAdd
      else afterAdd
    let stFinal := { afterRemove.2 with
      tempFiles := if env.rmTempDirOk then [] else afterRemove.2.tempFiles }
    ({ afterRemove.1 with success := afterRemove.1.errors.isEmpty }, stFinal)

/-- SyncEngine.executeSync (lines 371-545): resolve mapping, source and
device (each missing reference is a terminal error recorded in the result),
then run the sync body. -/
def executeSync (env : SyncEnv) (mappingId : String) (st : EngineState) : SyncResult × EngineState :=
  let r0 : SyncResult :=
    { mappingId := mappingId, success := false,
      photosAdded := 0, photosRemoved := 0, photosSkipped := 0, errors := [] }
  match env.mapping with
  | none => ({ r0 with errors := ["Mapping not found"] }, st)
  | some mapping =>
    if env.sourceFound = false then ({ r0 with errors := ["Source not found"] }, st)
    else if env.deviceFound = false then ({ r0 with errors := ["Device not found"] }, st)
    else runSync env mappingId mapping.syncMode mapping.maxPhotos r0 st

/-- Result of `device.shell('md5sum "<path>" 2>/dev/null')` as seen by
AdbService.getFileHash: either the trimmed stdout, or the transport threw
(connection refused, timeout, shell failure). -/
inductive ShellOutcome where
  | output (s : String)
  | failed (msg : String)
deriving DecidableEq, Repr

/-- JavaScript `s.split(' ')[0]`: the characters before the first space. -/
def firstWordChars : List Char → List Char
  | [] => []
  | c :: cs => if c = ' ' then [] else c :: firstWordChars cs

/-- JavaScript `s.split(' ')[0]`. -/
def firstWord (s : String) : String := String.mk (firstWordChars s.data)

/-- JavaScript `s.includes(sub)`: substring containment. -/
def containsSub (s sub : String) : Bool := decide (List.IsInfix sub.data s.data)

/-- AdbService.getFileHash (lines 303-311).  The result type is
`Except String (Option String)` to show what the operation can raise: the
function body catches every exception and returns null, so every outcome is
`Except.ok`; empty output or output containing 'No such file' yields null,
otherwise the first word of the md5sum output is returned. -/
def getFileHash (shellResult : ShellOutcome) : Except String (Option String) :=
  match shellResult with
  | ShellOutcome.failed _ => Except.ok none
  | ShellOutcome.output out =>
    if out = "" then Except.ok none
    else if containsSub out "No such file" then Except.ok none
    else Except.ok (some (firstWord out))

/-- SyncScheduler.triggerSync (lines 108-111): the body is one unconditional
`await syncEngine.executeSync(mappingId)` returning void.  The scheduler's
only state is the cron-task map and the isRunning flag; it keeps no record
of in-flight runs and consults none before starting a new one.  `inFlight`
is the multiset of engine runs executing when the trigger arrives; the call
always starts exactly one more run for `mappingId`.  The cron callback
registered by scheduleMapping (lines 62-71) invokes executeSync in the same
unconditional way. -/
def triggerSync (inFlight : List String) (mappingId : String) : List String :=
  inFlight ++ [mappingId]

/-! Scenario builders and concrete instances used by the theorems below. -/

/-- Collaborator outcomes in which every call for this photo completes:
the download lands in the temp dir, processing yields a jpeg artifact of
size `fsize p` whose content hash is `hsh p`, and the push resolves
successfully unless `pushFails` carries an error message (in which case the
push resolves with success:false and that message). -/
def okBehavior (hsh : PhotoInfo → String) (fsize : PhotoInfo → Nat)
    (pushFails : Option String) (p : PhotoInfo) : PhotoBehavior :=
  { download := Except.ok ("dl_" ++ p.name)
    process := Except.ok { path := "proc_" ++ p.name, size := fsize p, format := "jpeg" }
    hash := Except.ok (hsh p)
    push := match pushFails with
            | none => PushOutcome.success
            | some m => PushOutcome.failure m }

/-- Environment of a run in which mapping, source and device all resolve,
the source listing succeeds, and the local filesystem is reliable: every
temp-file unlink and the end-of-run temp-directory removal succeed. -/
def scenarioEnv (mapping : SyncMapping) (base : String) (photos : List PhotoInfo)
    (behavior : PhotoInfo → PhotoBehavior) (deleteOk : String → Bool) : SyncEnv :=
  { mapping := some mapping
    sourceFound := true
    deviceFound := true
    devicePath := base
    listPhotos := Except.ok photos
    behavior := behavior
    deleteOk := deleteOk
    unlinkOk := fun _ => true
    rmTempDirOk := true }

def pA : PhotoInfo := { id := "A", name := "a.jpg", path := "gp://a" }

def pB : PhotoInfo := { id := "B", name := "b.jpg", path := "gp://b" }

def pC : PhotoInfo := { id := "C", name := "c.jpg", path := "gp://c" }

/-- Content hashes where the processed bytes of pA and pB are identical. -/
def hshDup : PhotoInfo → String := fun p => if p.id = "C" then "cccc" else "aaaa"

/-- Pairwise distinct content hashes. -/
def hshDistinct : PhotoInfo → String := fun p => "h" ++ p.id

def fsz : PhotoInfo → Nat := fun _ => 100

def base0 : String := "/sdcard/Frameo"

def mapMirror : SyncMapping :=
  { id := "m1", sourceId := "s1", deviceId := "d1",
    syncMode := SyncMode.mirror, maxPhotos := none, isActive := true }

def mapAddOnly : SyncMapping :=
  { id := "m1", sourceId := "s1", deviceId := "d1",
    syncMode := SyncMode.addOnly, maxPhotos := none, isActive := true }

def mapCap2 : SyncMapping :=
  { id := "m1", sourceId := "s1", deviceId := "d1",
    syncMode := SyncMode.addOnly, maxPhotos := some 2, isActive := true }

def mapCap0 : SyncMapping :=
  { id := "m1", sourceId := "s1", deviceId := "d1",
    syncMode := SyncMode.addOnly, maxPhotos := some 0, isActive := true }

def stEmpty : EngineState := { ledger := [], device := [], tempFiles := [], nextRowId := 0 }

/-- Ledger row: photo A placed at the content-addressed path of hash aaaa. -/
def e1 : SyncedPhoto :=
  { id := "r1", mappingId := "m1", sourcePhotoId := "A", sourcePath := "gp://a",
    devicePath := devPath base0 "aaaa" "jpeg", fileHash := "aaaa", fileSize := 100 }

/-- Ledger row: photo B, identical bytes, same remote path as e1. -/
def e2 : SyncedPhoto :=
  { id := "r2", mappingId := "m1", sourcePhotoId := "B", sourcePath := "gp://b",
    devicePath := devPath base0 "aaaa" "jpeg", fileHash := "aaaa", fileSize := 100 }

/-- State for the shared-remote-path mirror scenario: both ledger rows point
at one remote file, which is present on the device. -/
def stC1 : EngineState :=
  { ledger := [e1, e2], device := [(devPath base0 "aaaa" "jpeg", "aaaa")],
    tempFiles := [], nextRowId := 7 }

def envC1 : SyncEnv :=
  scenarioEnv mapMirror base0 [pA] (okBehavior hshDup fsz none) (fun _ => true)

def envC2 : SyncEnv :=
  scenarioEnv mapAddOnly base0 [pA, pB] (okBehavior hshDup fsz none) (fun _ => true)

/-- Ledger row for the failed-delete scenario. -/
def e3 : SyncedPhoto :=
  { id := "r1", mappingId := "m1", sourcePhotoId := "B", sourcePath := "gp://b",
    devicePath := devPath base0 "bbbb" "jpeg", fileHash := "bbbb", fileSize := 100 }

def stC3 : EngineState :=
  { ledger := [e3], device := [(devPath base0 "bbbb" "jpeg", "bbbb")],
    tempFiles := [], nextRowId := 7 }

/-- Mirror run with an empty source and a failing remote delete. -/
def envC3 : SyncEnv :=
  scenarioEnv mapMirror base0 [] (okBehavior hshDup fsz none) (fun _ => false)

/-- Push fails for photo B only (transport error resolved as success:false). -/
def pfC6 : PhotoInfo → Option String := fun p => if p.id = "B" then some "device offline" else none

def envC6 : SyncEnv :=
  scenarioEnv mapAddOnly base0 [pA, pB, pC] (fun p => okBehavior hshDistinct fsz (pfC6 p) p)
    (fun _ => true)

def envC7 : SyncEnv :=
  scenarioEnv mapMirror base0 [pA, pB, pC] (fun p => okBehavior hshDup fsz none p)
    (fun _ => true)

def envC8 : SyncEnv :=
  scenarioEnv mapCap2 base0 [pA, pB, pC] (fun p => okBehavior hshDup fsz none p)
    (fun _ => true)

def envC8amended : SyncEnv :=
  scenarioEnv mapCap2 base0 [pA, pB, pC] (fun p => okBehavior hshDistinct fsz none p)
    (fun _ => true)

/-- Photo B's push transfer rejects (exception inside the iteration), so its
two temp files see no per-iteration cleanup. -/
def behC9 : PhotoInfo → PhotoBehavior := fun p =>
  if p.id = "B" then
    { download := Except.ok ("dl_" ++ p.name)
      process := Except.ok { path := "proc_" ++ p.name, size := 5, format := "jpeg" }
      hash := Except.ok "hB"
      push := PushOutcome.thrown "connection reset" }
  else okBehavior hshDistinct fsz none p

def envC9 : SyncEnv :=
  scenarioEnv mapMirror base0 [pA, pB] behC9 (fun _ => true)

/-- Same run as envC9 but the end-of-run removal of the temp directory
fails; executeSync ignores that failure. -/
def envC9fail : SyncEnv := { envC9 with rmTempDirOk := false }

def envC10 : SyncEnv :=
  scenarioEnv mapCap0 base0 [pA, pB] (fun p => okBehavior hshDistinct fsz none p)
    (fun _ => true)

def mapCap0none : SyncMapping :=
  { id := "m1", sourceId := "s1", deviceId := "d1",
    syncMode := SyncMode.addOnly, maxPhotos := none, isActive := true }

def envC10none : SyncEnv :=
  scenarioEnv mapCap0none base0 [pA, pB] (fun p => okBehavior hshDistinct fsz none p)
    (fun _ => true)

/-! State-projection lemmas. -/

@[simp] theorem addTemp_ledger (st : EngineState) (p : String) : (addTemp st p).ledger = st.ledger := rfl

@[simp] theorem addTemp_device (st : EngineState) (p : String) : (addTemp st p).device = st.device := rfl

@[simp] theorem addTemp_nextRowId (st : EngineState) (p : String) : (addTemp st p).nextRowId = st.nextRowId := rfl

@[simp] theorem addTemp_tempFiles (st : EngineState) (p : String) : (addTemp st p).tempFiles = st.tempFiles ++ [p] := rfl

@[simp] theorem cleanupTemp_ledger (ok : Bool) (st : EngineState) (p : String) :
    (cleanupTemp ok st p).ledger = st.ledger := rfl

@[simp] theorem cleanupTemp_device (ok : Bool) (st : EngineState) (p : String) :
    (cleanupTemp ok st p).device = st.device := rfl

@[simp] theorem cleanupTemp_nextRowId (ok : Bool) (st : EngineState) (p : String) :
    (cleanupTemp ok st p).nextRowId = st.nextRowId := rfl

@[simp] theorem setDevice_ledger (st : EngineState) (p h : String) : (setDevice st p h).ledger = st.ledger := rfl

@[simp] theorem setDevice_device (st : EngineState) (p h : String) : (setDevice st p h).device = setFile st.device p h := rfl

@[simp] theorem setDevice_nextRowId (st : EngineState) (p h : String) : (setDevice st p h).nextRowId = st.nextRowId := rfl

@[simp] theorem setDevice_tempFiles (st : EngineState) (p h : String) : (setDevice st p h).tempFiles = st.tempFiles := rfl

@[simp] theorem record_device (st : EngineState) (mid pid spath dpath fh : String) (sz : Nat) :
    (recordSyncedPhoto st mid pid spath dpath fh sz).device = st.device := rfl

@[simp] theorem record_tempFiles (st : EngineState) (mid pid spath dpath fh : String) (sz : Nat) :
    (recordSyncedPhoto st mid pid spath dpath fh sz).tempFiles = st.tempFiles := rfl

@[simp] theorem deleteSynced_device (st : EngineState) (rid : String) :
    (deleteSyncedPhoto st rid).device = st.device := rfl

@[simp] theorem deleteSynced_tempFiles (st : EngineState) (rid : String) :
    (deleteSyncedPhoto st rid).tempFiles = st.tempFiles := rfl

@[simp] theorem getSyncedPhotos_addTemp (st : EngineState) (p mid : String) :
    getSyncedPhotos (addTemp st p) mid = getSyncedPhotos st mid := rfl

@[simp] theorem getSyncedPhotos_cleanupTemp (ok : Bool) (st : EngineState) (p mid : String) :
    getSyncedPhotos (cleanupTemp ok st p) mid = getSyncedPhotos st mid := rfl

@[simp] theorem getSyncedPhotos_setDevice (st : EngineState) (p h mid : String) :
    getSyncedPhotos (setDevice st p h) mid = getSyncedPhotos st mid := rfl

/-! Device-directory lemmas. -/

theorem lookupFile_append_of_none {d : List (String × String)} {q : String}
    (b : List (String × String)) (h : lookupFile d q = none) :
    lookupFile (d ++ b) q = lookupFile b q := by
  induction d with
  | nil => simp
  | cons e rest ih =>
    obtain ⟨a, c⟩ := e
    by_cases haq : a = q
    · simp [lookupFile, haq] at h
    · simp only [List.cons_append, lookupFile, haq, if_false] at h ⊢
      exact ih h

theorem lookupFile_append_of_some {d : List (String × String)} {q h0 : String}
    (b : List (String × String)) (h : lookupFile d q = some h0) :
    lookupFile (d ++ b) q = some h0 := by
  induction d with
  | nil => simp [lookupFile] at h
  | cons e rest ih =>
    obtain ⟨a, c⟩ := e
    by_cases haq : a = q
    · simp only [lookupFile, haq, if_true] at h
      simp [List.cons_append, lookupFile, haq, h]
    · simp only [lookupFile, haq, if_false] at h
      simp only [List.cons_append, lookupFile, haq, if_false]
      exact ih h

theorem lookupFile_filter_self (d : List (String × String)) (p : String) :
    lookupFile (d.filter (fun e => e.fst ≠ p)) p = none := by
  induction d with
  | nil => simp [lookupFile]
  | cons e rest ih =>
    obtain ⟨a, c⟩ := e
    by_cases hap : a = p
    · simpa [List.filter, hap] using ih
    · simpa [List.filter, hap, lookupFile] using ih

theorem lookupFile_filter_other {p q : String} (d : List (String × String)) (hqp : q ≠ p) :
    lookupFile (d.filter (fun e => e.fst ≠ p)) q = lookupFile d q := by
  induction d with
  | nil => simp
  | cons e rest ih =>
    obtain ⟨a, c⟩ := e
    by_cases hap : a = p
    · simpa [List.filter, hap, lookupFile, Ne.symm hqp] using ih
    · by_cases haq : a = q
      · simp [List.filter, hap, lookupFile, haq, hqp]
      · simpa [List.filter, hap, lookupFile, haq] using ih

theorem lookupFile_setFile_self (d : List (String × String)) (p h : String) :
    lookupFile (setFile d p h) p = some h := by
  unfold setFile
  rw [lookupFile_append_of_none _ (lookupFile_filter_self d p)]
  simp [lookupFile]

theorem lookupFile_setFile_other (d : List (String × String)) {p q : String} (h : String)
    (hqp : q ≠ p) : lookupFile (setFile d p h) q = lookupFile d q := by
  unfold setFile
  cases hl : lookupFile d q with
  | some v =>
    rw [lookupFile_append_of_some _ (by rw [lookupFile_filter_other d hqp]; exact hl)]
  | none =>
    rw [lookupFile_append_of_none _ (by rw [lookupFile_filter_other d hqp]; exact hl)]
    simp [lookupFile, hl, Ne.symm hqp]

theorem lookupFile_removeFile_self (d : List (String × String)) (p : String) :
    lookupFile (removeFile d p) p = none :=
  lookupFile_filter_self d p

theorem lookupFile_removeFile_other (d : List (String × String)) {p q : String} (hqp : q ≠ p) :
    lookupFile (removeFile d p) q = lookupFile d q :=
  lookupFile_filter_other d hqp

/-! Ledger lemmas. -/

theorem getSyncedPhotos_record (st : EngineState) (mid pid spath dpath fh : String) (sz : Nat)
    (h : pid ∉ (getSyncedPhotos st mid).map SyncedPhoto.sourcePhotoId) :
    getSyncedPhotos (recordSyncedPhoto st mid pid spath dpath fh sz) mid =
      getSyncedPhotos st mid ++
        [{ id := "row" ++ toString st.nextRowId, mappingId := mid, sourcePhotoId := pid,
           sourcePath := spath, devicePath := dpath, fileHash := fh, fileSize := sz }] := by
  have hkeep : st.ledger.filter
      (fun sp => decide (¬ (sp.mappingId = mid ∧ sp.sourcePhotoId = pid))) = st.ledger := by
    rw [List.filter_eq_self]
    intro sp hsp
    simp only [decide_eq_true_eq, not_and]
    intro hmid hpid
    exact h (List.mem_map.mpr ⟨sp, List.mem_filter.mpr ⟨hsp, by simp [hmid]⟩, hpid⟩)
  unfold recordSyncedPhoto getSyncedPhotos
  simp only [List.filter_append]
  rw [hkeep]
  simp

theorem getSyncedPhotos_delete (st : EngineState) (rid mid : String) :
    getSyncedPhotos (deleteSyncedPhoto st rid) mid =
      (getSyncedPhotos st mid).filter (fun sp => sp.id ≠ rid) := by
  unfold deleteSyncedPhoto getSyncedPhotos
  induction st.ledger with
  | nil => simp
  | cons sp rest ih =>
    by_cases hm : sp.mappingId = mid
    · by_cases hr : sp.id = rid
      · simp [List.filter, hm, hr, ih, Bool.and_comm]
      · simp [List.filter, hm, hr, ih, Bool.and_comm]
    · by_cases hr : sp.id = rid
      · simp [List.filter, hm, hr, ih, Bool.and_comm]
      · simp [List.filter, hm, hr, ih, Bool.and_comm]

/-! Temp-file bookkeeping. -/

theorem tempFilesNil_eta (st : EngineState) (h : st.tempFiles = []) :
    { st with tempFiles := ([] : List String) } = st := by
  cases st
  simp_all

theorem cleanup_pair (st : EngineState) (a b : String) (h : st.tempFiles = []) :
    cleanupTemp true (cleanupTemp true (addTemp (addTemp st a) b) a) b = st := by
  cases st with
  | mk l d t n =>
    simp only at h
    subst h
    unfold cleanupTemp addTemp
    by_cases hba : b = a
    · subst hba; simp
    · simp [hba]

/-! Branch equations for one iteration of the addition pass. -/

theorem syncOnePhoto_mem (env : SyncEnv) (base mid : String) (ids : List String)
    (r : SyncResult) (st : EngineState) (photo : PhotoInfo) (h : photo.id ∈ ids) :
    syncOnePhoto env base mid ids (r, st) photo =
      ({ r with photosSkipped := r.photosSkipped + 1 }, st) := by
  simp [syncOnePhoto, h]

theorem syncOnePhoto_hashMatch (env : SyncEnv) (base mid : String) (ids : List String)
    (r : SyncResult) (st : EngineState) (photo : PhotoInfo) (dl : String)
    (pr : ProcessedImage) (fh : String) (po : PushOutcome)
    (h1 : photo.id ∉ ids)
    (hb : env.behavior photo =
      { download := Except.ok dl, process := Except.ok pr, hash := Except.ok fh, push := po })
    (hdev : lookupFile st.device (devPath base fh pr.format) = some fh) :
    syncOnePhoto env base mid ids (r, st) photo =
      ({ r with photosSkipped := r.photosSkipped + 1 },
       cleanupTemp (env.unlinkOk pr.path)
         (cleanupTemp (env.unlinkOk dl) (addTemp (addTemp st dl) pr.path) dl) pr.path) := by
  simp [syncOnePhoto, h1, hb, hdev]

theorem syncOnePhoto_pushOk (env : SyncEnv) (base mid : String) (ids : List String)
    (r : SyncResult) (st : EngineState) (photo : PhotoInfo) (dl : String)
    (pr : ProcessedImage) (fh : String)
    (h1 : photo.id ∉ ids)
    (hb : env.behavior photo =
      { download := Except.ok dl, process := Except.ok pr, hash := Except.ok fh,
        push := PushOutcome.success })
    (hdev : ¬ lookupFile st.device (devPath base fh pr.format) = some fh) :
    syncOnePhoto env base mid ids (r, st) photo =
      ({ r with photosAdded := r.photosAdded + 1 },
       cleanupTemp (env.unlinkOk pr.path)
         (cleanupTemp (env.unlinkOk dl)
           (recordSyncedPhoto
             (setDevice (addTemp (addTemp st dl) pr.path) (devPath base fh pr.format) fh)
             mid photo.id photo.path (devPath base fh pr.format) fh pr.size) dl) pr.path) := by
  simp [syncOnePhoto, h1, hb, hdev]

theorem syncOnePhoto_pushFail (env : SyncEnv) (base mid : String) (ids : List String)
    (r : SyncResult) (st : EngineState) (photo : PhotoInfo) (dl : String)
    (pr : ProcessedImage) (fh m : String)
    (h1 : photo.id ∉ ids)
    (hb : env.behavior photo =
      { download := Except.ok dl, process := Except.ok pr, hash := Except.ok fh,
        push := PushOutcome.failure m })
    (hdev : ¬ lookupFile st.device (devPath base fh pr.format) = some fh) :
    syncOnePhoto env base mid ids (r, st) photo =
      ({ r with errors := r.errors ++ ["Failed to push " ++ photo.name ++ ": " ++ m] },
       cleanupTemp (env.unlinkOk pr.path)
         (cleanupTemp (env.unlinkOk dl) (addTemp (addTemp st dl) pr.path) dl) pr.path) := by
  simp [syncOnePhoto, h1, hb, hdev]

theorem syncOnePhoto_pushThrown (env : SyncEnv) (base mid : String) (ids : List String)
    (r : SyncResult) (st : EngineState) (photo : PhotoInfo) (dl : String)
    (pr : ProcessedImage) (fh m : String)
    (h1 : photo.id ∉ ids)
    (hb : env.behavior photo =
      { download := Except.ok dl, process := Except.ok pr, hash := Except.ok fh,
        push := PushOutcome.thrown m })
    (hdev : ¬ lookupFile st.device (devPath base fh pr.format) = some fh) :
    syncOnePhoto env base mid ids (r, st) photo =
      ({ r with errors := r.errors ++ ["Error processing " ++ photo.name ++ ": " ++ m] },
       addTemp (addTemp st dl) pr.path) := by
  simp [syncOnePhoto, h1, hb, hdev]

/-! Characterization of the addition pass over photos with pairwise distinct
ids and pairwise distinct content-addressed paths, none already on the
device or in the ledger: every photo whose push succeeds is added and
recorded, every photo whose push resolves with success:false contributes
exactly one error, and nothing is skipped. -/

theorem additionPass_mixed
    (env : SyncEnv) (base mid : String) (snap : List String)
    (hsh : PhotoInfo → String) (fsize : PhotoInfo → Nat) (pf : PhotoInfo → Option String) :
    ∀ (photos : List PhotoInfo) (r : SyncResult) (st : EngineState),
      (∀ p ∈ photos, env.behavior p = okBehavior hsh fsize (pf p) p) →
      (∀ p ∈ photos, p.id ∉ snap) →
      (∀ p ∈ photos, lookupFile st.device (devPath base (hsh p) "jpeg") = none) →
      List.Pairwise (fun p q => devPath base (hsh p) "jpeg" ≠ devPath base (hsh q) "jpeg") photos →
      (∀ p ∈ photos, p.id ∉ (getSyncedPhotos st mid).map SyncedPhoto.sourcePhotoId) →
      List.Pairwise (fun p q => p.id ≠ q.id) photos →
      (photos.foldl (syncOnePhoto env base mid snap) (r, st)).1.photosAdded
          = r.photosAdded + (photos.filter (fun p => (pf p).isNone)).length ∧
      (photos.foldl (syncOnePhoto env base mid snap) (r, st)).1.photosSkipped = r.photosSkipped ∧
      (photos.foldl (syncOnePhoto env base mid snap) (r, st)).1.photosRemoved = r.photosRemoved ∧
      (photos.foldl (syncOnePhoto env base mid snap) (r, st)).1.errors
          = r.errors ++ photos.filterMap
              (fun p => (pf p).map (fun m => "Failed to push " ++ p.name ++ ": " ++ m)) ∧
      (getSyncedPhotos (photos.foldl (syncOnePhoto env base mid snap) (r, st)).2 mid).map
            SyncedPhoto.sourcePhotoId
          = (getSyncedPhotos st mid).map SyncedPhoto.sourcePhotoId
              ++ ((photos.filter (fun p => (pf p).isNone)).map PhotoInfo.id) ∧
      (photos.foldl (syncOnePhoto env base mid snap) (r, st)).1.mappingId = r.mappingId := by
  intro photos
  induction photos with
  | nil =>
    intro r st _ _ _ _ _ _
    simp
  | cons x rest ih =>
    intro r st hb hsnap hfresh hpaths hled hids
    have hbx := hb x (List.mem_cons_self x rest)
    have hsnapx := hsnap x (List.mem_cons_self x rest)
    have hfreshx := hfresh x (List.mem_cons_self x rest)
    have hledx := hled x (List.mem_cons_self x rest)
    have hpaths2 := (List.pairwise_cons.mp hpaths)
    have hids2 := (List.pairwise_cons.mp hids)
    cases hpf : pf x with
    | none =>
      have hb' : env.behavior x =
          { download := Except.ok ("dl_" ++ x.name),
            process := Except.ok { path := "proc_" ++ x.name, size := fsize x, format := "jpeg" },
            hash := Except.ok (hsh x), push := PushOutcome.success } := by
        rw [hbx]; simp [okBehavior, hpf]
      rw [List.foldl_cons,
          syncOnePhoto_pushOk env base mid snap r st x _ _ _ hsnapx hb'
            (by rw [hfreshx]; simp)]
      have hgsp : getSyncedPhotos (cleanupTemp (env.unlinkOk ("proc_" ++ x.name)) (cleanupTemp (env.unlinkOk ("dl_" ++ x.name))
            (recordSyncedPhoto
              (setDevice (addTemp (addTemp st ("dl_" ++ x.name)) ("proc_" ++ x.name))
                (devPath base (hsh x) "jpeg") (hsh x))
              mid x.id x.path (devPath base (hsh x) "jpeg") (hsh x) (fsize x))
            ("dl_" ++ x.name)) ("proc_" ++ x.name)) mid
          = getSyncedPhotos st mid ++
            [{ id := "row" ++ toString st.nextRowId, mappingId := mid, sourcePhotoId := x.id,
               sourcePath := x.path, devicePath := devPath base (hsh x) "jpeg",
               fileHash := hsh x, fileSize := fsize x }] := by
        rw [getSyncedPhotos_cleanupTemp, getSyncedPhotos_cleanupTemp]
        rw [getSyncedPhotos_record _ _ _ _ _ _ _ (by simpa using hledx)]
        simp
      obtain ⟨ha, hs, hrm, he, hl, hmap⟩ := ih
        ({ r with photosAdded := r.photosAdded + 1 })
        (cleanupTemp (env.unlinkOk ("proc_" ++ x.name)) (cleanupTemp (env.unlinkOk ("dl_" ++ x.name))
          (recordSyncedPhoto
            (setDevice (addTemp (addTemp st ("dl_" ++ x.name)) ("proc_" ++ x.name))
              (devPath base (hsh x) "jpeg") (hsh x))
            mid x.id x.path (devPath base (hsh x) "jpeg") (hsh x) (fsize x))
          ("dl_" ++ x.name)) ("proc_" ++ x.name))
        (fun p hp => hb p (List.mem_cons_of_mem x hp))
        (fun p hp => hsnap p (List.mem_cons_of_mem x hp))
        (fun p hp => by
          simp only [cleanupTemp_device, record_device, setDevice_device, addTemp_device]
          rw [lookupFile_setFile_other _ _ (Ne.symm (hpaths2.1 p hp))]
          exact hfresh p (List.mem_cons_of_mem x hp))
        hpaths2.2
        (fun p hp => by
          rw [hgsp]
          simp only [List.map_append, List.mem_append, List.map_cons, List.map_nil]
          rintro (hin | hin)
          · exact hled p (List.mem_cons_of_mem x hp) hin
          · simp only [List.mem_singleton] at hin
            exact hids2.1 p hp hin.symm)
        hids2.2
      refine ⟨?_, ?_, ?_, ?_, ?_, ?_⟩
      · rw [ha]; simp [List.filter_cons, hpf]; omega
      · rw [hs]
      · rw [hrm]
      · rw [he]; simp [List.filterMap_cons, hpf]
      · rw [hl, hgsp]
        simp [List.filter_cons, hpf, List.append_assoc]
      · rw [hmap]
    | some m =>
      have hb' : env.behavior x =
          { download := Except.ok ("dl_" ++ x.name),
            process := Except.ok { path := "proc_" ++ x.name, size := fsize x, format := "jpeg" },
            hash := Except.ok (hsh x), push := PushOutcome.failure m } := by
        rw [hbx]; simp [okBehavior, hpf]
      rw [List.foldl_cons,
          syncOnePhoto_pushFail env base mid snap r st x _ _ _ _ hsnapx hb'
            (by rw [hfreshx]; simp)]
      obtain ⟨ha, hs, hrm, he, hl, hmap⟩ := ih
        ({ r with errors := r.errors ++ ["Failed to push " ++ x.name ++ ": " ++ m] })
        (cleanupTemp (env.unlinkOk ("proc_" ++ x.name)) (cleanupTemp (env.unlinkOk ("dl_" ++ x.name)) (addTemp (addTemp st ("dl_" ++ x.name)) ("proc_" ++ x.name))
          ("dl_" ++ x.name)) ("proc_" ++ x.name))
        (fun p hp => hb p (List.mem_cons_of_mem x hp))
        (fun p hp => hsnap p (List.mem_cons_of_mem x hp))
        (fun p hp => by
          simp only [cleanupTemp_device, addTemp_device]
          exact hfresh p (List.mem_cons_of_mem x hp))
        hpaths2.2
        (fun p hp => by
          simp only [getSyncedPhotos_cleanupTemp, getSyncedPhotos_addTemp]
          exact hled p (List.mem_cons_of_mem x hp))
        hids2.2
      refine ⟨?_, ?_, ?_, ?_, ?_, ?_⟩
      · rw [ha]; simp [List.filter_cons, hpf]
      · rw [hs]
      · rw [hrm]
      · rw [he]; simp [List.filterMap_cons, hpf, List.append_assoc]
      · rw [hl]
        simp [List.filter_cons, hpf]
      · rw [hmap]

/-! Characterization of the addition pass when every collaborator call
succeeds, duplicates allowed: afterwards every photo's content-addressed
path holds its bytes (pushed once, identical later photos skip), the device
changes only at the photos' paths, and every ledger row for the mapping is
either pre-existing or belongs to one of the photos. -/

theorem additionPass_dedup
    (env : SyncEnv) (base mid : String) (snap : List String)
    (hsh : PhotoInfo → String) (fsize : PhotoInfo → Nat) :
    ∀ (photos : List PhotoInfo) (r : SyncResult) (st : EngineState),
      (∀ p ∈ photos, env.behavior p = okBehavior hsh fsize none p) →
      (∀ p ∈ photos, p.id ∉ snap) →
      (∀ p ∈ photos, lookupFile st.device (devPath base (hsh p) "jpeg") = none
          ∨ lookupFile st.device (devPath base (hsh p) "jpeg") = some (hsh p)) →
      (∀ p ∈ photos, ∀ q ∈ photos,
          devPath base (hsh p) "jpeg" = devPath base (hsh q) "jpeg" → hsh p = hsh q) →
      (∀ p ∈ photos, p.id ∉ (getSyncedPhotos st mid).map SyncedPhoto.sourcePhotoId) →
      List.Pairwise (fun p q => p.id ≠ q.id) photos →
      (∀ p ∈ photos,
          lookupFile (photos.foldl (syncOnePhoto env base mid snap) (r, st)).2.device
            (devPath base (hsh p) "jpeg") = some (hsh p)) ∧
      (∀ s, lookupFile (photos.foldl (syncOnePhoto env base mid snap) (r, st)).2.device s
            = lookupFile st.device s
          ∨ ∃ p, p ∈ photos ∧ s = devPath base (hsh p) "jpeg" ∧
              lookupFile (photos.foldl (syncOnePhoto env base mid snap) (r, st)).2.device s
                = some (hsh p)) ∧
      (∀ sp ∈ getSyncedPhotos (photos.foldl (syncOnePhoto env base mid snap) (r, st)).2 mid,
          sp.sourcePhotoId ∈ (getSyncedPhotos st mid).map SyncedPhoto.sourcePhotoId
          ∨ sp.sourcePhotoId ∈ photos.map PhotoInfo.id) := by
  intro photos
  induction photos with
  | nil =>
    intro r st _ _ _ _ _ _
    exact ⟨by simp, fun s => Or.inl rfl,
      fun sp hsp => Or.inl (List.mem_map_of_mem _ (by simpa using hsp))⟩
  | cons x rest ih =>
    intro r st hb hsnap hdev hinj hled hids
    have hbx := hb x (List.mem_cons_self x rest)
    have hsnapx := hsnap x (List.mem_cons_self x rest)
    have hledx := hled x (List.mem_cons_self x rest)
    have hids2 := (List.pairwise_cons.mp hids)
    have hb' : env.behavior x =
        { download := Except.ok ("dl_" ++ x.name),
          process := Except.ok { path := "proc_" ++ x.name, size := fsize x, format := "jpeg" },
          hash := Except.ok (hsh x), push := PushOutcome.success } := by
      rw [hbx]; simp [okBehavior]
    rcases hdev x (List.mem_cons_self x rest) with hnone | hsome
    · -- fresh path: push branch
      rw [List.foldl_cons,
          syncOnePhoto_pushOk env base mid snap r st x _ _ _ hsnapx hb'
            (by rw [hnone]; simp)]
      have hgsp : getSyncedPhotos (cleanupTemp (env.unlinkOk ("proc_" ++ x.name)) (cleanupTemp (env.unlinkOk ("dl_" ++ x.name))
            (recordSyncedPhoto
              (setDevice (addTemp (addTemp st ("dl_" ++ x.name)) ("proc_" ++ x.name))
                (devPath base (hsh x) "jpeg") (hsh x))
              mid x.id x.path (devPath base (hsh x) "jpeg") (hsh x) (fsize x))
            ("dl_" ++ x.name)) ("proc_" ++ x.name)) mid
          = getSyncedPhotos st mid ++
            [{ id := "row" ++ toString st.nextRowId, mappingId := mid, sourcePhotoId := x.id,
               sourcePath := x.path, devicePath := devPath base (hsh x) "jpeg",
               fileHash := hsh x, fileSize := fsize x }] := by
        rw [getSyncedPhotos_cleanupTemp, getSyncedPhotos_cleanupTemp]
        rw [getSyncedPhotos_record _ _ _ _ _ _ _ (by simpa using hledx)]
        simp
      obtain ⟨H1, H2, H3⟩ := ih
        ({ r with photosAdded := r.photosAdded + 1 })
        (cleanupTemp (env.unlinkOk ("proc_" ++ x.name)) (cleanupTemp (env.unlinkOk ("dl_" ++ x.name))
          (recordSyncedPhoto
            (setDevice (addTemp (addTemp st ("dl_" ++ x.name)) ("proc_" ++ x.name))
              (devPath base (hsh x) "jpeg") (hsh x))
            mid x.id x.path (devPath base (hsh x) "jpeg") (hsh x) (fsize x))
          ("dl_" ++ x.name)) ("proc_" ++ x.name))
        (fun p hp => hb p (List.mem_cons_of_mem x hp))
        (fun p hp => hsnap p (List.mem_cons_of_mem x hp))
        (fun p hp => by
          simp only [cleanupTemp_device, record_device, setDevice_device, addTemp_device]
          by_cases hpq : devPath base (hsh p) "jpeg" = devPath base (hsh x) "jpeg"
          · right
            rw [hpq, lookupFile_setFile_self]
            have := hinj p (List.mem_cons_of_mem x hp) x (List.mem_cons_self x rest) hpq
            rw [this]
          · rw [lookupFile_setFile_other _ _ hpq]
            exact hdev p (List.mem_cons_of_mem x hp))
        (fun p hp q hq => hinj p (List.mem_cons_of_mem x hp) q (List.mem_cons_of_mem x hq))
        (fun p hp => by
          rw [hgsp]
          simp only [List.map_append, List.mem_append, List.map_cons, List.map_nil]
          rintro (hin | hin)
          · exact hled p (List.mem_cons_of_mem x hp) hin
          · simp only [List.mem_singleton] at hin
            exact hids2.1 p hp hin.symm)
        hids2.2
      refine ⟨?_, ?_, ?_⟩
      · intro p hp
        rcases List.mem_cons.mp hp with hpx | hpr
        · subst hpx
          rcases H2 (devPath base (hsh p) "jpeg") with hsame | ⟨q, hq, hqs, hqv⟩
          · rw [hsame]
            simp only [cleanupTemp_device, record_device, setDevice_device, addTemp_device]
            rw [lookupFile_setFile_self]
          · rw [hqv]
            have := hinj p (List.mem_cons_self p rest) q (List.mem_cons_of_mem p hq) hqs
            rw [this]
        · exact H1 p hpr
      · intro s
        rcases H2 s with hsame | ⟨q, hq, hqs, hqv⟩
        · by_cases hsx : s = devPath base (hsh x) "jpeg"
          · right
            refine ⟨x, List.mem_cons_self x rest, hsx, ?_⟩
            rw [hsame]
            simp only [cleanupTemp_device, record_device, setDevice_device, addTemp_device]
            rw [hsx, lookupFile_setFile_self]
          · left
            rw [hsame]
            simp only [cleanupTemp_device, record_device, setDevice_device, addTemp_device]
            exact lookupFile_setFile_other _ _ hsx
        · right
          exact ⟨q, List.mem_cons_of_mem x hq, hqs, hqv⟩
      · intro sp hsp
        rcases H3 sp hsp with hin | hin
        · rw [hgsp] at hin
          simp only [List.map_append, List.mem_append, List.map_cons, List.map_nil] at hin
          rcases hin with hin | hin
          · exact Or.inl hin
          · simp only [List.mem_singleton] at hin
            right
            simp [hin]
        · right
          simp only [List.map_cons, List.mem_cons]
          exact Or.inr hin
    · -- bytes already on the device: hash-match skip
      rw [List.foldl_cons,
          syncOnePhoto_hashMatch env base mid snap r st x _ _ _ _ hsnapx hb' hsome]
      obtain ⟨H1, H2, H3⟩ := ih
        ({ r with photosSkipped := r.photosSkipped + 1 })
        (cleanupTemp (env.unlinkOk ("proc_" ++ x.name)) (cleanupTemp (env.unlinkOk ("dl_" ++ x.name)) (addTemp (addTemp st ("dl_" ++ x.name)) ("proc_" ++ x.name))
          ("dl_" ++ x.name)) ("proc_" ++ x.name))
        (fun p hp => hb p (List.mem_cons_of_mem x hp))
        (fun p hp => hsnap p (List.mem_cons_of_mem x hp))
        (fun p hp => by
          simp only [cleanupTemp_device, addTemp_device]
          exact hdev p (List.mem_cons_of_mem x hp))
        (fun p hp q hq => hinj p (List.mem_cons_of_mem x hp) q (List.mem_cons_of_mem x hq))
        (fun p hp => by
          simp only [getSyncedPhotos_cleanupTemp, getSyncedPhotos_addTemp]
          exact hled p (List.mem_cons_of_mem x hp))
        hids2.2
      refine ⟨?_, ?_, ?_⟩
      · intro p hp
        rcases List.mem_cons.mp hp with hpx | hpr
        · subst hpx
          rcases H2 (devPath base (hsh p) "jpeg") with hsame | ⟨q, hq, hqs, hqv⟩
          · rw [hsame]
            simpa using hsome
          · rw [hqv]
            have := hinj p (List.mem_cons_self p rest) q (List.mem_cons_of_mem p hq) hqs
            rw [this]
        · exact H1 p hpr
      · intro s
        rcases H2 s with hsame | ⟨q, hq, hqs, hqv⟩
        · left
          rw [hsame]
          simp
        · right
          exact ⟨q, List.mem_cons_of_mem x hq, hqs, hqv⟩
      · intro sp hsp
        rcases H3 sp hsp with hin | hin
        · left
          simpa using hin
        · right
          simp only [List.map_cons, List.mem_cons]
          exact Or.inr hin

/-! When every photo either already has a ledger row (snapshot id set) or its
bytes are already at its content-addressed path, the addition pass only
counts skips and leaves the state untouched. -/

theorem additionPass_allskip
    (env : SyncEnv) (base mid : String) (snap : List String)
    (hsh : PhotoInfo → String) (fsize : PhotoInfo → Nat) :
    ∀ (photos : List PhotoInfo) (r : SyncResult) (st : EngineState),
      (∀ p ∈ photos, env.behavior p = okBehavior hsh fsize none p) →
      (∀ p ∈ photos, p.id ∈ snap ∨
          lookupFile st.device (devPath base (hsh p) "jpeg") = some (hsh p)) →
      (∀ s, env.unlinkOk s = true) →
      st.tempFiles = [] →
      photos.foldl (syncOnePhoto env base mid snap) (r, st)
        = ({ r with photosSkipped := r.photosSkipped + photos.length }, st) := by
  intro photos
  induction photos with
  | nil =>
    intro r st _ _ _ _
    simp
  | cons x rest ih =>
    intro r st hb hskip hunlink htemp
    rcases hskip x (List.mem_cons_self x rest) with hmem | hsome
    · rw [List.foldl_cons, syncOnePhoto_mem env base mid snap r st x hmem]
      rw [ih _ st (fun p hp => hb p (List.mem_cons_of_mem x hp))
          (fun p hp => hskip p (List.mem_cons_of_mem x hp)) hunlink htemp]
      simp [List.length_cons]
      try omega
    · by_cases hmem : x.id ∈ snap
      · rw [List.foldl_cons, syncOnePhoto_mem env base mid snap r st x hmem]
        rw [ih _ st (fun p hp => hb p (List.mem_cons_of_mem x hp))
            (fun p hp => hskip p (List.mem_cons_of_mem x hp)) hunlink htemp]
        simp [List.length_cons]
        try omega
      · have hb' : env.behavior x =
            { download := Except.ok ("dl_" ++ x.name),
              process := Except.ok { path := "proc_" ++ x.name, size := fsize x, format := "jpeg" },
              hash := Except.ok (hsh x), push := PushOutcome.success } := by
          rw [hb x (List.mem_cons_self x rest)]; simp [okBehavior]
        rw [List.foldl_cons,
            syncOnePhoto_hashMatch env base mid snap r st x _ _ _ _ hmem hb' hsome,
            hunlink, hunlink, cleanup_pair st _ _ htemp]
        rw [ih _ st (fun p hp => hb p (List.mem_cons_of_mem x hp))
            (fun p hp => hskip p (List.mem_cons_of_mem x hp)) hunlink htemp]
        simp [List.length_cons]
        try omega

/-! Run-level assembly lemmas. -/

theorem toRemove_nil (snapshot : List SyncedPhoto) (ids : List String)
    (h : ∀ sp ∈ snapshot, sp.sourcePhotoId ∈ ids) :
    snapshot.filter (fun sp => decide (¬ sp.sourcePhotoId ∈ ids)) = [] := by
  rw [List.filter_eq_nil_iff]
  intro sp hsp
  simpa using h sp hsp

theorem executeSync_scenario (mapping : SyncMapping) (base : String) (photos : List PhotoInfo)
    (behavior : PhotoInfo → PhotoBehavior) (delOk : String → Bool) (mid : String)
    (st : EngineState) :
    executeSync (scenarioEnv mapping base photos behavior delOk) mid st =
      runSync (scenarioEnv mapping base photos behavior delOk) mid mapping.syncMode
        mapping.maxPhotos
        { mappingId := mid, success := false, photosAdded := 0, photosRemoved := 0,
          photosSkipped := 0, errors := [] } st := by
  simp [executeSync, scenarioEnv]

/-- With an empty ledger snapshot for the mapping and a succeeding end-of-run
temp-directory removal, a run is the addition pass followed by clearing the
temp directory (the removal pass has nothing to consider, whatever the
policy). -/
theorem runSync_empty_snapshot (env : SyncEnv) (mid : String) (sm : SyncMode)
    (mp : Option Nat) (r0 : SyncResult) (st : EngineState) (photos : List PhotoInfo)
    (hl : env.listPhotos = Except.ok photos)
    (hsnapshot : getSyncedPhotos st mid = [])
    (hrm : env.rmTempDirOk = true) :
    runSync env mid sm mp r0 st =
      ({ ((truncatePhotos mp photos).foldl
            (syncOnePhoto env env.devicePath mid []) (r0, st)).1 with
          success := ((truncatePhotos mp photos).foldl
            (syncOnePhoto env env.devicePath mid []) (r0, st)).1.errors.isEmpty },
       { ((truncatePhotos mp photos).foldl
            (syncOnePhoto env env.devicePath mid []) (r0, st)).2 with
          tempFiles := [] }) := by
  unfold runSync
  rw [hl]
  simp [hsnapshot, hrm]

/-- A run over a state that already covers every photo (each photo has
a ledger row or its bytes at its content-addressed path) and whose ledger
rows all correspond to current photos: everything is skipped, nothing is
removed, and the state is unchanged. -/
theorem runSync_covered (env : SyncEnv) (mid : String) (sm : SyncMode)
    (mp : Option Nat) (r0 : SyncResult) (st : EngineState) (photos : List PhotoInfo)
    (hsh : PhotoInfo → String) (fsize : PhotoInfo → Nat)
    (hl : env.listPhotos = Except.ok photos)
    (hb : ∀ p ∈ truncatePhotos mp photos, env.behavior p = okBehavior hsh fsize none p)
    (hskip : ∀ p ∈ truncatePhotos mp photos,
        p.id ∈ (getSyncedPhotos st mid).map SyncedPhoto.sourcePhotoId ∨
        lookupFile st.device (devPath env.devicePath (hsh p) "jpeg") = some (hsh p))
    (hunlink : ∀ s, env.unlinkOk s = true)
    (htemp : st.tempFiles = [])
    (hrm : env.rmTempDirOk = true)
    (hcover : ∀ sp ∈ getSyncedPhotos st mid,
        sp.sourcePhotoId ∈ (truncatePhotos mp photos).map PhotoInfo.id) :
    runSync env mid sm mp r0 st =
      ({ r0 with photosSkipped := r0.photosSkipped + (truncatePhotos mp photos).length,
                 success := r0.errors.isEmpty }, st) := by
  have hfold := additionPass_allskip env env.devicePath mid
      ((getSyncedPhotos st mid).map (fun sp => sp.sourcePhotoId)) hsh fsize
      (truncatePhotos mp photos) r0 st hb
      (fun p hp => by
        rcases hskip p hp with h1 | h1
        · left; simpa using h1
        · right; exact h1) hunlink htemp
  have hrem : (getSyncedPhotos st mid).filter
      (fun sp => decide (¬ sp.sourcePhotoId ∈ (truncatePhotos mp photos).map (fun p => p.id))) = [] := by
    apply toRemove_nil
    intro sp hsp
    simpa using hcover sp hsp
  simp only [runSync, hl]
  rw [hfold, hrem]
  simp [hrm, tempFilesNil_eta st htemp]

@[simp] theorem scenarioEnv_mapping (m : SyncMapping) (b : String) (ph : List PhotoInfo)
    (bh : PhotoInfo → PhotoBehavior) (d : String → Bool) :
    (scenarioEnv m b ph bh d).mapping = some m := rfl

@[simp] theorem scenarioEnv_devicePath (m : SyncMapping) (b : String) (ph : List PhotoInfo)
    (bh : PhotoInfo → PhotoBehavior) (d : String → Bool) :
    (scenarioEnv m b ph bh d).devicePath = b := rfl

@[simp] theorem scenarioEnv_listPhotos (m : SyncMapping) (b : String) (ph : List PhotoInfo)
    (bh : PhotoInfo → PhotoBehavior) (d : String → Bool) :
    (scenarioEnv m b ph bh d).listPhotos = Except.ok ph := rfl

@[simp] theorem scenarioEnv_behavior (m : SyncMapping) (b : String) (ph : List PhotoInfo)
    (bh : PhotoInfo → PhotoBehavior) (d : String → Bool) :
    (scenarioEnv m b ph bh d).behavior = bh := rfl

@[simp] theorem scenarioEnv_deleteOk (m : SyncMapping) (b : String) (ph : List PhotoInfo)
    (bh : PhotoInfo → PhotoBehavior) (d : String → Bool) :
    (scenarioEnv m b ph bh d).deleteOk = d := rfl

@[simp] theorem scenarioEnv_unlinkOk (m : SyncMapping) (b : String) (ph : List PhotoInfo)
    (bh : PhotoInfo → PhotoBehavior) (d : String → Bool) (s : String) :
    (scenarioEnv m b ph bh d).unlinkOk s = true := rfl

@[simp] theorem scenarioEnv_rmTempDirOk (m : SyncMapping) (b : String) (ph : List PhotoInfo)
    (bh : PhotoInfo → PhotoBehavior) (d : String → Bool) :
    (scenarioEnv m b ph bh d).rmTempDirOk = true := rfl

/-! Claim theorems. -/

/-- C10: a mapping whose maxPhotos field equals 0 is treated as having no
cap.  JavaScript truthiness makes `mapping.maxPhotos ? slice : all` skip the
truncation branch for 0 exactly as for undefined, so executeSync with
maxPhotos = 0 behaves identically to the uncapped mapping and syncs every
photo the source returns, rather than zero photos; the truncation branch
fires only for a strictly positive maxPhotos. -/
theorem c10_maxPhotos_zero_means_no_cap
    (env : SyncEnv) (mid : String) (st : EngineState) (m : SyncMapping)
    (hm : env.mapping = some m) (hz : m.maxPhotos = some 0) :
    executeSync env mid st =
      executeSync { env with mapping := some { m with maxPhotos := none } } mid st := by
  obtain ⟨mId, msId, mdId, msm, mmp, mact⟩ := m
  change mmp = some 0 at hz
  subst hz
  unfold executeSync
  rw [hm]
  rfl

/-- Witness for C10 at a concrete run: two photos, maxPhotos = 0. -/
theorem c10_witness :
    executeSync envC10 "m1" stEmpty =
      executeSync { envC10 with mapping := some { mapCap0 with maxPhotos := none } } "m1"
        stEmpty :=
  c10_maxPhotos_zero_means_no_cap envC10 "m1" stEmpty mapCap0 rfl rfl

/-- C5 counterexample: triggering mapping m1 while a run for m1 is already
in flight starts a second concurrent run — the in-flight run count for m1
rises to 2 instead of staying at 1, because triggerSync has no single-flight
guard (and, returning void, it cannot return the in-flight run's result). -/
theorem c5_counterexample :
    (triggerSync ["m1"] "m1").count "m1" = 2 ∧
    ¬ ((triggerSync ["m1"] "m1").count "m1" ≤ 1) := by
  decide

/-- C5 amended: triggerSync consults no in-flight state: every trigger
(manual or cron-fired) starts exactly one new executeSync run for its
mappingId, even when a run for that same mappingId is already in flight;
runs for different mappings are unaffected by the trigger. -/
theorem c5_trigger_always_starts_run (inFlight : List String) (mid other : String)
    (hne : other ≠ mid) :
    (triggerSync inFlight mid).count mid = inFlight.count mid + 1 ∧
    (triggerSync inFlight mid).count other = inFlight.count other := by
  constructor
  · simp [triggerSync]
  · simp [triggerSync, hne]

/-- Witness for C5 amended at a concrete trigger. -/
theorem c5_witness :
    (triggerSync ["m1"] "m1").count "m1" = (["m1"] : List String).count "m1" + 1 ∧
    (triggerSync ["m1"] "m1").count "m2" = (["m1"] : List String).count "m2" :=
  c5_trigger_always_starts_run ["m1"] "m1" "m2" (by decide)

/-- C4 counterexample: a genuine transport failure (the shell call throws
with connection refused) is swallowed by getFileHash's catch and returned as
nil — it is not raised, contrary to the claim that only logical absence
yields nil. -/
theorem c4_counterexample :
    getFileHash (ShellOutcome.failed "connection refused") = Except.ok none ∧
    ¬ (∃ e, getFileHash (ShellOutcome.failed "connection refused") = Except.error e) := by
  refine ⟨rfl, ?_⟩
  rintro ⟨e, he⟩
  simp [getFileHash] at he

/-- C4 amended: getFileHash returns the first word of the md5sum output for
an existing remote file and nil (without throwing) for a missing one, but it
never raises at all: a genuine transport failure is also caught and returned
as nil, indistinguishable from logical absence. -/
theorem c4_remote_hash_never_raises (out m : String)
    (hne : out ≠ "") (hnsf : containsSub out "No such file" = false) :
    getFileHash (ShellOutcome.output out) = Except.ok (some (firstWord out)) ∧
    getFileHash (ShellOutcome.output "") = Except.ok none ∧
    getFileHash (ShellOutcome.failed m) = Except.ok none := by
  refine ⟨?_, rfl, rfl⟩
  simp [getFileHash, hne, hnsf]

/-- Witness for C4 amended on a concrete md5sum output line. -/
theorem c4_witness :
    getFileHash (ShellOutcome.output "d41d8cd98f00b204e9800998ecf8427e  /sdcard/pic.jpg")
        = Except.ok (some (firstWord "d41d8cd98f00b204e9800998ecf8427e  /sdcard/pic.jpg")) ∧
    getFileHash (ShellOutcome.output "") = Except.ok none ∧
    getFileHash (ShellOutcome.failed "connection refused") = Except.ok none :=
  c4_remote_hash_never_raises _ "connection refused" (by decide) (by decide)

/-- C9 counterexample: photo B's push transfer rejects inside its iteration,
so neither of its two temporaries sees a cleanup call (there is no finally);
the end-of-run removal of the temp directory then fails, a failure
executeSync catches and ignores, so both artifacts survive the run. -/
theorem c9_counterexample :
    (executeSync envC9fail "m1" stEmpty).2.tempFiles
      = ["dl_" ++ pB.name, "proc_" ++ pB.name] ∧
    ¬ ((executeSync envC9fail "m1" stEmpty).2.tempFiles = []) := by
  decide

/-- C9 amended: an exception inside a photo's iteration skips that photo's
two cleanup calls (there is no finally), so releasing its temporaries falls
to the end-of-run removal of the whole temp directory — which is
best-effort: its failure is caught and ignored.  Whenever that final
removal succeeds, every temporary artifact is gone when executeSync
returns, regardless of any iteration's outcome (throws included, and the
early-return paths precede artifact creation); when it fails, the
artifacts of exception-hit iterations survive the run. -/
theorem c9_rm_success_releases_all (env : SyncEnv) (mid : String) (st : EngineState)
    (h : st.tempFiles = []) (hrm : env.rmTempDirOk = true) :
    ((executeSync env mid st).2).tempFiles = [] := by
  unfold executeSync
  cases hm : env.mapping with
  | none => simpa using h
  | some m =>
    by_cases hs : env.sourceFound = false
    · simp [hs, h]
    · by_cases hd : env.deviceFound = false
      · simp [hs, hd, h]
      · simp only [hs, hd, if_false]
        unfold runSync
        cases hl : env.listPhotos with
        | error msg => simpa using h
        | ok photos => simp [hrm]

/-- Witness for C9 amended: photo B's push transfer throws mid-batch, but
the final temp-directory removal succeeds, leaving no artifacts. -/
theorem c9_witness : ((executeSync envC9 "m1" stEmpty).2).tempFiles = [] :=
  c9_rm_success_releases_all envC9 "m1" stEmpty rfl rfl

/-- C3 counterexample: a mirror run over an empty source with a stale ledger
row whose remote delete fails: executeSync records no error, the ledger row
is gone (deleted despite the unconfirmed remote delete), the removal is
counted, and the remote file in fact remains on the device. -/
theorem c3_counterexample :
    (executeSync envC3 "m1" stC3).1.errors = [] ∧
    getSyncedPhotos (executeSync envC3 "m1" stC3).2 "m1" = [] ∧
    (executeSync envC3 "m1" stC3).1.photosRemoved = 1 ∧
    lookupFile (executeSync envC3 "m1" stC3).2.device (devPath base0 "bbbb" "jpeg")
      = some "bbbb" := by
  decide

/-- C3 amended: the mirror removal pass never inspects deleteFile's boolean
result.  For a ledger entry whose remote delete fails (deleteFile returns
false; it never throws), executeSync records no error, deletes the ledger
entry anyway, counts it as removed, and the remote file stays on the device
— so the entry is NOT left intact for a future run to retry. -/
theorem c3_failed_delete_still_drops_ledger
    (mapping : SyncMapping) (base mid : String) (e : SyncedPhoto) (st : EngineState)
    (hmir : mapping.syncMode = SyncMode.mirror)
    (hledger : getSyncedPhotos st mid = [e])
    (hdev : lookupFile st.device e.devicePath = some e.fileHash) :
    (executeSync (scenarioEnv mapping base [] (okBehavior hshDup fsz none) (fun _ => false))
        mid st).1.errors = [] ∧
    (executeSync (scenarioEnv mapping base [] (okBehavior hshDup fsz none) (fun _ => false))
        mid st).1.photosRemoved = 1 ∧
    getSyncedPhotos (executeSync (scenarioEnv mapping base [] (okBehavior hshDup fsz none)
        (fun _ => false)) mid st).2 mid = [] ∧
    lookupFile (executeSync (scenarioEnv mapping base [] (okBehavior hshDup fsz none)
        (fun _ => false)) mid st).2.device e.devicePath = some e.fileHash := by
  have htr : truncatePhotos mapping.maxPhotos ([] : List PhotoInfo) = [] := by
    cases mapping.maxPhotos with
    | none => rfl
    | some n => by_cases hn : n = 0 <;> simp [truncatePhotos, hn]
  have hrun : executeSync (scenarioEnv mapping base [] (okBehavior hshDup fsz none)
        (fun _ => false)) mid st =
      ({ mappingId := mid, success := true, photosAdded := 0, photosRemoved := 1,
         photosSkipped := 0, errors := [] },
       { (deleteSyncedPhoto st e.id) with tempFiles := [] }) := by
    rw [executeSync_scenario]
    simp only [runSync, scenarioEnv_listPhotos, htr, List.foldl_nil, hledger, hmir,
      scenarioEnv_deleteOk]
    simp [removeOneSynced, List.filter]
  refine ⟨by rw [hrun], by rw [hrun], ?_, ?_⟩
  · rw [hrun]
    have heq : getSyncedPhotos { (deleteSyncedPhoto st e.id) with tempFiles := ([] : List String) } mid
        = getSyncedPhotos (deleteSyncedPhoto st e.id) mid := rfl
    rw [heq, getSyncedPhotos_delete, hledger]
    simp
  · rw [hrun]
    have heq : lookupFile ({ (deleteSyncedPhoto st e.id) with
        tempFiles := ([] : List String) } : EngineState).device e.devicePath
        = lookupFile st.device e.devicePath := rfl
    rw [heq, hdev]

/-- Witness for C3 amended at the concrete failed-delete scenario. -/
theorem c3_witness :
    (executeSync (scenarioEnv mapMirror base0 [] (okBehavior hshDup fsz none) (fun _ => false))
        "m1" stC3).1.errors = [] ∧
    (executeSync (scenarioEnv mapMirror base0 [] (okBehavior hshDup fsz none) (fun _ => false))
        "m1" stC3).1.photosRemoved = 1 ∧
    getSyncedPhotos (executeSync (scenarioEnv mapMirror base0 [] (okBehavior hshDup fsz none)
        (fun _ => false)) "m1" stC3).2 "m1" = [] ∧
    lookupFile (executeSync (scenarioEnv mapMirror base0 [] (okBehavior hshDup fsz none)
        (fun _ => false)) "m1" stC3).2.device e3.devicePath = some e3.fileHash :=
  c3_failed_delete_still_drops_ledger mapMirror base0 "m1" e3 stC3 rfl (by decide) (by decide)

/-- C1 counterexample: mirror run where ledger rows r1 (photo A) and r2
(photo B) share one remote path, the source now holds only A, and the
delete succeeds: the shared remote file IS deleted from the device (lookup
none, not the stored hash), even though the surviving row r1 still
references it. -/
theorem c1_counterexample :
    ¬ (lookupFile (executeSync envC1 "m1" stC1).2.device (devPath base0 "aaaa" "jpeg")
        = some "aaaa") ∧
    lookupFile (executeSync envC1 "m1" stC1).2.device (devPath base0 "aaaa" "jpeg") = none ∧
    getSyncedPhotos (executeSync envC1 "m1" stC1).2 "m1" = [e1] := by
  decide

/-- C1 amended: before a mirror-mode remote delete, executeSync checks no
other ledger rows: when two rows share one remote path and only the second
row's source photo is removed from the source set, the removal pass still
issues the remote delete, so the shared remote file is deleted from the
device while the surviving photo is counted as a skip and its ledger row
remains (now pointing at a file that is gone). -/
theorem c1_shared_path_delete
    (mapping : SyncMapping) (base mid : String) (a : PhotoInfo) (ea eb : SyncedPhoto)
    (st : EngineState)
    (hmir : mapping.syncMode = SyncMode.mirror)
    (hcap : mapping.maxPhotos = none)
    (hledger : getSyncedPhotos st mid = [ea, eb])
    (hea : ea.sourcePhotoId = a.id)
    (hne : eb.sourcePhotoId ≠ a.id)
    (hshared : eb.devicePath = ea.devicePath)
    (hrow : ea.id ≠ eb.id) :
    (executeSync (scenarioEnv mapping base [a] (okBehavior hshDup fsz none) (fun _ => true))
        mid st).1.photosRemoved = 1 ∧
    (executeSync (scenarioEnv mapping base [a] (okBehavior hshDup fsz none) (fun _ => true))
        mid st).1.photosSkipped = 1 ∧
    lookupFile (executeSync (scenarioEnv mapping base [a] (okBehavior hshDup fsz none)
        (fun _ => true)) mid st).2.device ea.devicePath = none ∧
    getSyncedPhotos (executeSync (scenarioEnv mapping base [a] (okBehavior hshDup fsz none)
        (fun _ => true)) mid st).2 mid = [ea] := by
  have hmem : a.id ∈ (getSyncedPhotos st mid).map (fun sp => sp.sourcePhotoId) := by
    rw [hledger]
    simp [hea]
  have hrun : executeSync (scenarioEnv mapping base [a] (okBehavior hshDup fsz none)
        (fun _ => true)) mid st =
      ({ mappingId := mid, success := true, photosAdded := 0, photosRemoved := 1,
         photosSkipped := 1, errors := [] },
       { (deleteSyncedPhoto
            { st with device := removeFile st.device eb.devicePath } eb.id) with
          tempFiles := [] }) := by
    rw [executeSync_scenario]
    simp only [runSync, scenarioEnv_listPhotos, hcap, truncatePhotos, hmir,
      scenarioEnv_deleteOk, scenarioEnv_devicePath]
    rw [List.foldl_cons, syncOnePhoto_mem _ _ _ _ _ _ _ (by rw [hledger]; simp [hea])]
    simp only [List.foldl_nil, hledger]
    have hfilt : ([ea, eb] : List SyncedPhoto).filter
        (fun sp => decide (¬ sp.sourcePhotoId ∈ ([a] : List PhotoInfo).map (fun p => p.id)))
        = [eb] := by
      simp [List.filter, hea, hne]
    rw [hfilt]
    simp [removeOneSynced]
  refine ⟨by rw [hrun], by rw [hrun], ?_, ?_⟩
  · rw [hrun]
    have heq : lookupFile ({ (deleteSyncedPhoto
          { st with device := removeFile st.device eb.devicePath } eb.id) with
          tempFiles := ([] : List String) } : EngineState).device ea.devicePath
        = lookupFile (removeFile st.device eb.devicePath) ea.devicePath := rfl
    rw [heq, hshared, lookupFile_removeFile_self]
  · rw [hrun]
    have heq : getSyncedPhotos ({ (deleteSyncedPhoto
          { st with device := removeFile st.device eb.devicePath } eb.id) with
          tempFiles := ([] : List String) } : EngineState) mid
        = getSyncedPhotos (deleteSyncedPhoto
            { st with device := removeFile st.device eb.devicePath } eb.id) mid := rfl
    rw [heq, getSyncedPhotos_delete]
    have heq2 : getSyncedPhotos { st with device := removeFile st.device eb.devicePath } mid
        = getSyncedPhotos st mid := rfl
    rw [heq2, hledger]
    simp [List.filter, hrow]

/-- Witness for C1 amended at the concrete shared-path scenario. -/
theorem c1_witness :
    (executeSync (scenarioEnv mapMirror base0 [pA] (okBehavior hshDup fsz none) (fun _ => true))
        "m1" stC1).1.photosRemoved = 1 ∧
    (executeSync (scenarioEnv mapMirror base0 [pA] (okBehavior hshDup fsz none) (fun _ => true))
        "m1" stC1).1.photosSkipped = 1 ∧
    lookupFile (executeSync (scenarioEnv mapMirror base0 [pA] (okBehavior hshDup fsz none)
        (fun _ => true)) "m1" stC1).2.device e1.devicePath = none ∧
    getSyncedPhotos (executeSync (scenarioEnv mapMirror base0 [pA] (okBehavior hshDup fsz none)
        (fun _ => true)) "m1" stC1).2 "m1" = [e1] :=
  c1_shared_path_delete mapMirror base0 "m1" pA e1 e2 stC1 rfl rfl (by decide) (by decide)
    (by decide) (by decide) (by decide)

theorem filter_ne_of_lookup_none (d : List (String × String)) (p : String)
    (h : lookupFile d p = none) : d.filter (fun e => e.fst ≠ p) = d := by
  induction d with
  | nil => rfl
  | cons e rest ih =>
    obtain ⟨a, c⟩ := e
    by_cases hap : a = p
    · simp [lookupFile, hap] at h
    · simp only [lookupFile, hap, if_false] at h
      rw [List.filter_cons_of_pos (by simp [hap]), ih h]

@[simp] theorem getSyncedPhotos_tempNil (S : EngineState) (mid : String) :
    getSyncedPhotos { S with tempFiles := ([] : List String) } mid = getSyncedPhotos S mid := rfl

@[simp] theorem device_tempNil (S : EngineState) :
    ({ S with tempFiles := ([] : List String) } : EngineState).device = S.device := rfl

/-- C2 counterexample: photos A and B have identical processed bytes; on a
fresh device the run pushes A, then hash-match-skips B WITHOUT recording a
ledger row for it: the ledger ends with one row (A's), not the two claimed
rows sharing the remote path. -/
theorem c2_counterexample :
    (executeSync envC2 "m1" stEmpty).1.photosAdded = 1 ∧
    (executeSync envC2 "m1" stEmpty).1.photosSkipped = 1 ∧
    ¬ ((getSyncedPhotos (executeSync envC2 "m1" stEmpty).2 "m1").length = 2) ∧
    (getSyncedPhotos (executeSync envC2 "m1" stEmpty).2 "m1").map (fun sp => sp.sourcePhotoId)
      = ["A"] := by
  decide

/-- C2 amended: when the processed content hash already matches the remote
file at the derived path, executeSync counts a skip but records NO ledger
entry.  Two source photos with identical processed bytes therefore end a
fresh run with exactly one remote file and exactly one ledger row — the
first photo's — rather than two rows pointing at the same remote path. -/
theorem c2_dedup_single_row
    (mapping : SyncMapping) (base mid : String) (a b : PhotoInfo)
    (hsh : PhotoInfo → String) (fsize : PhotoInfo → Nat) (st : EngineState)
    (hcap : mapping.maxPhotos = none)
    (hhash : hsh a = hsh b)
    (hledger : getSyncedPhotos st mid = [])
    (hfresh : lookupFile st.device (devPath base (hsh a) "jpeg") = none) :
    (executeSync (scenarioEnv mapping base [a, b] (fun p => okBehavior hsh fsize none p)
        (fun _ => true)) mid st).1.photosAdded = 1 ∧
    (executeSync (scenarioEnv mapping base [a, b] (fun p => okBehavior hsh fsize none p)
        (fun _ => true)) mid st).1.photosSkipped = 1 ∧
    (getSyncedPhotos (executeSync (scenarioEnv mapping base [a, b]
        (fun p => okBehavior hsh fsize none p) (fun _ => true)) mid st).2 mid).map
        (fun sp => sp.sourcePhotoId) = [a.id] ∧
    lookupFile (executeSync (scenarioEnv mapping base [a, b]
        (fun p => okBehavior hsh fsize none p) (fun _ => true)) mid st).2.device
        (devPath base (hsh a) "jpeg") = some (hsh a) ∧
    (executeSync (scenarioEnv mapping base [a, b] (fun p => okBehavior hsh fsize none p)
        (fun _ => true)) mid st).2.device.length = st.device.length + 1 := by
  rw [executeSync_scenario]
  rw [runSync_empty_snapshot _ _ _ _ _ _ ([a, b]) rfl hledger rfl]
  simp only [hcap, truncatePhotos, scenarioEnv_devicePath]
  rw [List.foldl_cons, syncOnePhoto_pushOk _ _ _ _ _ _ a ("dl_" ++ a.name)
        { path := "proc_" ++ a.name, size := fsize a, format := "jpeg" } (hsh a)
        (by simp) (by simp [scenarioEnv, okBehavior]) (by rw [hfresh]; simp)]
  rw [List.foldl_cons, syncOnePhoto_hashMatch _ _ _ _ _ _ b ("dl_" ++ b.name)
        { path := "proc_" ++ b.name, size := fsize b, format := "jpeg" } (hsh b)
        PushOutcome.success
        (by simp) (by simp [scenarioEnv, okBehavior])
        (by simp only [cleanupTemp_device, record_device, setDevice_device, addTemp_device]
            rw [← hhash, lookupFile_setFile_self])]
  rw [List.foldl_nil]
  refine ⟨by simp, by simp, ?_, ?_, ?_⟩
  · simp only [getSyncedPhotos_tempNil, getSyncedPhotos_cleanupTemp, getSyncedPhotos_addTemp]
    rw [getSyncedPhotos_record _ _ _ _ _ _ _ (by rw [getSyncedPhotos_setDevice,
        getSyncedPhotos_addTemp, getSyncedPhotos_addTemp, hledger]; simp)]
    rw [getSyncedPhotos_setDevice, getSyncedPhotos_addTemp, getSyncedPhotos_addTemp, hledger]
    simp
  · simp only [device_tempNil, cleanupTemp_device, addTemp_device, record_device,
      setDevice_device]
    rw [lookupFile_setFile_self]
  · simp only [device_tempNil, cleanupTemp_device, addTemp_device, record_device,
      setDevice_device]
    rw [setFile]
    rw [filter_ne_of_lookup_none _ _ hfresh]
    simp

/-- Witness for C2 amended: the concrete duplicate-bytes pair on a fresh
device and ledger. -/
theorem c2_witness :
    (executeSync (scenarioEnv mapAddOnly base0 [pA, pB] (fun p => okBehavior hshDup fsz none p)
        (fun _ => true)) "m1" stEmpty).1.photosAdded = 1 ∧
    (executeSync (scenarioEnv mapAddOnly base0 [pA, pB] (fun p => okBehavior hshDup fsz none p)
        (fun _ => true)) "m1" stEmpty).1.photosSkipped = 1 ∧
    (getSyncedPhotos (executeSync (scenarioEnv mapAddOnly base0 [pA, pB]
        (fun p => okBehavior hshDup fsz none p) (fun _ => true)) "m1" stEmpty).2 "m1").map
        (fun sp => sp.sourcePhotoId) = [pA.id] ∧
    lookupFile (executeSync (scenarioEnv mapAddOnly base0 [pA, pB]
        (fun p => okBehavior hshDup fsz none p) (fun _ => true)) "m1" stEmpty).2.device
        (devPath base0 (hshDup pA) "jpeg") = some (hshDup pA) ∧
    (executeSync (scenarioEnv mapAddOnly base0 [pA, pB] (fun p => okBehavior hshDup fsz none p)
        (fun _ => true)) "m1" stEmpty).2.device.length = stEmpty.device.length + 1 :=
  c2_dedup_single_row mapAddOnly base0 "m1" pA pB hshDup fsz stEmpty rfl (by decide) rfl rfl

/-- C6: one photo's push failure never aborts the run: with the photos
pre ++ bad :: post all new (M = pre.length + 1 + post.length photos with
distinct ids and distinct fresh content-addressed paths), where exactly
`bad`'s push fails (resolves success:false) and every other photo downloads,
processes and pushes fine, executeSync continues past the failure and
returns photosAdded = M - 1, exactly one error (the push failure), and
M - 1 new ledger rows — not zero. -/
theorem c6_partial_failure_isolation
    (mapping : SyncMapping) (base mid failMsg : String)
    (pre post : List PhotoInfo) (bad : PhotoInfo)
    (hsh : PhotoInfo → String) (fsize : PhotoInfo → Nat) (st : EngineState)
    (hcap : mapping.maxPhotos = none)
    (hledger : getSyncedPhotos st mid = [])
    (hfresh : ∀ p ∈ pre ++ bad :: post,
        lookupFile st.device (devPath base (hsh p) "jpeg") = none)
    (hpaths : List.Pairwise
        (fun p q => devPath base (hsh p) "jpeg" ≠ devPath base (hsh q) "jpeg")
        (pre ++ bad :: post))
    (hids : List.Pairwise (fun p q => p.id ≠ q.id) (pre ++ bad :: post)) :
    (executeSync (scenarioEnv mapping base (pre ++ bad :: post)
        (fun p => okBehavior hsh fsize (if p.id = bad.id then some failMsg else none) p)
        (fun _ => true)) mid st).1.photosAdded = pre.length + post.length ∧
    (executeSync (scenarioEnv mapping base (pre ++ bad :: post)
        (fun p => okBehavior hsh fsize (if p.id = bad.id then some failMsg else none) p)
        (fun _ => true)) mid st).1.errors
      = ["Failed to push " ++ bad.name ++ ": " ++ failMsg] ∧
    (getSyncedPhotos (executeSync (scenarioEnv mapping base (pre ++ bad :: post)
        (fun p => okBehavior hsh fsize (if p.id = bad.id then some failMsg else none) p)
        (fun _ => true)) mid st).2 mid).length = pre.length + post.length := by
  have hprene : ∀ p ∈ pre, p.id ≠ bad.id := by
    intro p hp
    exact (List.pairwise_append.mp hids).2.2 p hp bad (List.mem_cons_self bad post)
  have hpostne : ∀ p ∈ post, p.id ≠ bad.id := by
    intro p hp
    exact Ne.symm ((List.pairwise_cons.mp (List.pairwise_append.mp hids).2.1).1 p hp)
  have hfilter : (pre ++ bad :: post).filter
      (fun p => ((if p.id = bad.id then some failMsg else none : Option String)).isNone)
      = pre ++ post := by
    rw [List.filter_append]
    congr 1
    · rw [List.filter_eq_self]
      intro p hp
      simp [hprene p hp]
    · rw [List.filter_cons_of_neg (by simp)]
      rw [List.filter_eq_self]
      intro p hp
      simp [hpostne p hp]
  have hfiltermap : (pre ++ bad :: post).filterMap
      (fun p => ((if p.id = bad.id then some failMsg else none : Option String)).map
        (fun m => "Failed to push " ++ p.name ++ ": " ++ m))
      = ["Failed to push " ++ bad.name ++ ": " ++ failMsg] := by
    rw [List.filterMap_append]
    have h1 : pre.filterMap
        (fun p => ((if p.id = bad.id then some failMsg else none : Option String)).map
          (fun m => "Failed to push " ++ p.name ++ ": " ++ m)) = [] := by
      rw [List.filterMap_eq_nil_iff]
      intro p hp
      simp [hprene p hp]
    have h2 : (bad :: post).filterMap
        (fun p => ((if p.id = bad.id then some failMsg else none : Option String)).map
          (fun m => "Failed to push " ++ p.name ++ ": " ++ m))
        = ["Failed to push " ++ bad.name ++ ": " ++ failMsg] := by
      rw [List.filterMap_cons]
      have h3 : post.filterMap
          (fun p => ((if p.id = bad.id then some failMsg else none : Option String)).map
            (fun m => "Failed to push " ++ p.name ++ ": " ++ m)) = [] := by
        rw [List.filterMap_eq_nil_iff]
        intro p hp
        simp [hpostne p hp]
      simp
      intro p hp
      exact hpostne p hp
    rw [h1, h2]
    rfl
  obtain ⟨ha, hs, hrm, he, hl, hmapid⟩ := additionPass_mixed
      (scenarioEnv mapping base (pre ++ bad :: post)
        (fun p => okBehavior hsh fsize (if p.id = bad.id then some failMsg else none) p)
        (fun _ => true))
      base mid [] hsh fsize (fun p => if p.id = bad.id then some failMsg else none)
      (pre ++ bad :: post)
      { mappingId := mid, success := false, photosAdded := 0, photosRemoved := 0,
        photosSkipped := 0, errors := [] }
      st
      (fun p _ => rfl)
      (fun p _ => by simp)
      hfresh hpaths
      (fun p _ => by rw [hledger]; simp)
      hids
  rw [executeSync_scenario]
  rw [runSync_empty_snapshot _ _ _ _ _ _ _ rfl hledger rfl]
  simp only [hcap, truncatePhotos, scenarioEnv_devicePath]
  refine ⟨?_, ?_, ?_⟩
  · simp only [ha, hfilter]
    simp
  · simp only [he, hfiltermap]
    simp
  · simp only [getSyncedPhotos_tempNil]
    have hlen := congrArg List.length hl
    simp only [List.length_map, List.length_append, hledger] at hlen
    rw [hlen, hfilter]
    simp


/-- Witness for C6: batch [A] ++ B :: [C] with B's push failing:
added = 2 = M - 1, exactly one error, two ledger rows. -/
theorem c6_witness :
    (executeSync (scenarioEnv mapAddOnly base0 ([pA] ++ pB :: [pC])
        (fun p => okBehavior hshDistinct fsz (if p.id = pB.id then some "device offline" else none) p)
        (fun _ => true)) "m1" stEmpty).1.photosAdded = [pA].length + [pC].length ∧
    (executeSync (scenarioEnv mapAddOnly base0 ([pA] ++ pB :: [pC])
        (fun p => okBehavior hshDistinct fsz (if p.id = pB.id then some "device offline" else none) p)
        (fun _ => true)) "m1" stEmpty).1.errors
      = ["Failed to push " ++ pB.name ++ ": " ++ "device offline"] ∧
    (getSyncedPhotos (executeSync (scenarioEnv mapAddOnly base0 ([pA] ++ pB :: [pC])
        (fun p => okBehavior hshDistinct fsz (if p.id = pB.id then some "device offline" else none) p)
        (fun _ => true)) "m1" stEmpty).2 "m1").length = [pA].length + [pC].length :=
  c6_partial_failure_isolation mapAddOnly base0 "m1" "device offline" [pA] [pC] pB
    hshDistinct fsz stEmpty rfl rfl (by decide) (by decide) (by decide)

/-- C8 counterexample: maxPhotos = 2, source [A, B, C] where A and B have
identical processed bytes: the run succeeds but leaves ONE ledger row, not
exactly N = 2 rows for the first two photos. -/
theorem c8_counterexample :
    (executeSync envC8 "m1" stEmpty).1.success = true ∧
    ¬ ((getSyncedPhotos (executeSync envC8 "m1" stEmpty).2 "m1").length = 2) ∧
    (getSyncedPhotos (executeSync envC8 "m1" stEmpty).2 "m1").length = 1 := by
  decide

/-- C8 amended: with maxPhotos = n (0 < n ≤ M), executeSync considers
exactly the first n photos in the order the source returned them (the
truncation is `slice(0, n)`, no re-sorting).  Provided those n photos'
processed artifacts occupy pairwise distinct content-addressed paths, a run
on a fresh device and ledger leaves exactly n ledger rows, one per photo in
source order; a photo among the first n whose bytes match an already-pushed
file is skipped without a row, so only then can fewer rows remain. -/
theorem c8_cap_considers_first_n
    (mapping : SyncMapping) (base mid : String) (photos : List PhotoInfo) (n : Nat)
    (hsh : PhotoInfo → String) (fsize : PhotoInfo → Nat) (st : EngineState)
    (hcap : mapping.maxPhotos = some n) (hn : n ≠ 0) (hlen : n ≤ photos.length)
    (hledger : getSyncedPhotos st mid = [])
    (hfresh : ∀ p ∈ photos.take n, lookupFile st.device (devPath base (hsh p) "jpeg") = none)
    (hpaths : List.Pairwise
        (fun p q => devPath base (hsh p) "jpeg" ≠ devPath base (hsh q) "jpeg")
        (photos.take n))
    (hids : List.Pairwise (fun p q => p.id ≠ q.id) (photos.take n)) :
    truncatePhotos mapping.maxPhotos photos = photos.take n ∧
    (getSyncedPhotos (executeSync (scenarioEnv mapping base photos
        (fun p => okBehavior hsh fsize none p) (fun _ => true)) mid st).2 mid).map
        SyncedPhoto.sourcePhotoId = (photos.take n).map PhotoInfo.id ∧
    (getSyncedPhotos (executeSync (scenarioEnv mapping base photos
        (fun p => okBehavior hsh fsize none p) (fun _ => true)) mid st).2 mid).length = n := by
  have htr : truncatePhotos mapping.maxPhotos photos = photos.take n := by
    rw [hcap]
    simp [truncatePhotos, hn]
  obtain ⟨ha, hs, hrm, he, hl, hmapid⟩ := additionPass_mixed
      (scenarioEnv mapping base photos (fun p => okBehavior hsh fsize none p) (fun _ => true))
      base mid [] hsh fsize (fun _ => none) (photos.take n)
      { mappingId := mid, success := false, photosAdded := 0, photosRemoved := 0,
        photosSkipped := 0, errors := [] }
      st
      (fun p _ => rfl) (fun p _ => by simp) hfresh hpaths
      (fun p _ => by rw [hledger]; simp) hids
  have hmap : (getSyncedPhotos (executeSync (scenarioEnv mapping base photos
      (fun p => okBehavior hsh fsize none p) (fun _ => true)) mid st).2 mid).map
      SyncedPhoto.sourcePhotoId = (photos.take n).map PhotoInfo.id := by
    rw [executeSync_scenario, runSync_empty_snapshot _ _ _ _ _ _ _ rfl hledger rfl]
    simp only [htr, scenarioEnv_devicePath, getSyncedPhotos_tempNil]
    rw [hl, hledger]
    simp
  refine ⟨htr, hmap, ?_⟩
  have hlen2 := congrArg List.length hmap
  simp only [List.length_map] at hlen2
  rw [hlen2, List.length_take]
  exact Nat.min_eq_left hlen

/-- Witness for C8 amended: cap 2 over three distinct-bytes photos. -/
theorem c8_witness :
    truncatePhotos mapCap2.maxPhotos [pA, pB, pC] = [pA, pB, pC].take 2 ∧
    (getSyncedPhotos (executeSync (scenarioEnv mapCap2 base0 [pA, pB, pC]
        (fun p => okBehavior hshDistinct fsz none p) (fun _ => true)) "m1" stEmpty).2 "m1").map
        SyncedPhoto.sourcePhotoId = ([pA, pB, pC].take 2).map PhotoInfo.id ∧
    (getSyncedPhotos (executeSync (scenarioEnv mapCap2 base0 [pA, pB, pC]
        (fun p => okBehavior hshDistinct fsz none p) (fun _ => true)) "m1"
        stEmpty).2 "m1").length = 2 :=
  c8_cap_considers_first_n mapCap2 base0 "m1" [pA, pB, pC] 2 hshDistinct fsz stEmpty rfl
    (by decide) (by decide) rfl (by decide) (by decide) (by decide)

/-- C7: running the sync twice for the same mapping over an unchanged source
photo set with a live device, starting from a fresh state (no ledger rows
for the mapping, none of the photos' content-addressed paths on the device),
is idempotent: the second run's counts are photosAdded = 0, photosRemoved =
0 and photosSkipped = N, where N is the number of source photos within any
maxPhotos cap.  Photos with identical processed bytes are allowed — the
only requirement on hashes is that equal device paths carry equal hashes,
which holds for `<hash>.<ext>` naming. -/
theorem c7_second_run_idempotent
    (mapping : SyncMapping) (base mid : String) (photos : List PhotoInfo)
    (hsh : PhotoInfo → String) (fsize : PhotoInfo → Nat) (st : EngineState)
    (hledger : getSyncedPhotos st mid = [])
    (hfresh : ∀ p ∈ truncatePhotos mapping.maxPhotos photos,
        lookupFile st.device (devPath base (hsh p) "jpeg") = none)
    (hinj : ∀ p ∈ truncatePhotos mapping.maxPhotos photos,
        ∀ q ∈ truncatePhotos mapping.maxPhotos photos,
          devPath base (hsh p) "jpeg" = devPath base (hsh q) "jpeg" → hsh p = hsh q)
    (hids : List.Pairwise (fun p q => p.id ≠ q.id) (truncatePhotos mapping.maxPhotos photos)) :
    (executeSync (scenarioEnv mapping base photos (fun p => okBehavior hsh fsize none p)
          (fun _ => true)) mid
        (executeSync (scenarioEnv mapping base photos (fun p => okBehavior hsh fsize none p)
          (fun _ => true)) mid st).2).1.photosAdded = 0 ∧
    (executeSync (scenarioEnv mapping base photos (fun p => okBehavior hsh fsize none p)
          (fun _ => true)) mid
        (executeSync (scenarioEnv mapping base photos (fun p => okBehavior hsh fsize none p)
          (fun _ => true)) mid st).2).1.photosRemoved = 0 ∧
    (executeSync (scenarioEnv mapping base photos (fun p => okBehavior hsh fsize none p)
          (fun _ => true)) mid
        (executeSync (scenarioEnv mapping base photos (fun p => okBehavior hsh fsize none p)
          (fun _ => true)) mid st).2).1.photosSkipped
      = (truncatePhotos mapping.maxPhotos photos).length := by
  obtain ⟨H1, H2, H3⟩ := additionPass_dedup
      (scenarioEnv mapping base photos (fun p => okBehavior hsh fsize none p) (fun _ => true))
      base mid [] hsh fsize (truncatePhotos mapping.maxPhotos photos)
      { mappingId := mid, success := false, photosAdded := 0, photosRemoved := 0,
        photosSkipped := 0, errors := [] }
      st
      (fun p _ => rfl) (fun p _ => by simp)
      (fun p hp => Or.inl (hfresh p hp))
      hinj
      (fun p _ => by rw [hledger]; simp)
      hids
  have hrun1 : executeSync (scenarioEnv mapping base photos
        (fun p => okBehavior hsh fsize none p) (fun _ => true)) mid st
      = ({ ((truncatePhotos mapping.maxPhotos photos).foldl
              (syncOnePhoto (scenarioEnv mapping base photos
                (fun p => okBehavior hsh fsize none p) (fun _ => true)) base mid [])
              ({ mappingId := mid, success := false, photosAdded := 0, photosRemoved := 0,
                 photosSkipped := 0, errors := [] }, st)).1 with
            success := ((truncatePhotos mapping.maxPhotos photos).foldl
              (syncOnePhoto (scenarioEnv mapping base photos
                (fun p => okBehavior hsh fsize none p) (fun _ => true)) base mid [])
              ({ mappingId := mid, success := false, photosAdded := 0, photosRemoved := 0,
                 photosSkipped := 0, errors := [] }, st)).1.errors.isEmpty },
         { ((truncatePhotos mapping.maxPhotos photos).foldl
              (syncOnePhoto (scenarioEnv mapping base photos
                (fun p => okBehavior hsh fsize none p) (fun _ => true)) base mid [])
              ({ mappingId := mid, success := false, photosAdded := 0, photosRemoved := 0,
                 photosSkipped := 0, errors := [] }, st)).2 with
            tempFiles := [] }) := by
    rw [executeSync_scenario, runSync_empty_snapshot _ _ _ _ _ _ photos rfl hledger rfl]
    simp only [scenarioEnv_devicePath]
  rw [hrun1, executeSync_scenario]
  rw [runSync_covered
      (scenarioEnv mapping base photos (fun p => okBehavior hsh fsize none p) (fun _ => true))
      mid mapping.syncMode mapping.maxPhotos
      { mappingId := mid, success := false, photosAdded := 0, photosRemoved := 0,
        photosSkipped := 0, errors := [] }
      ({ ((truncatePhotos mapping.maxPhotos photos).foldl
            (syncOnePhoto (scenarioEnv mapping base photos
              (fun p => okBehavior hsh fsize none p) (fun _ => true)) base mid [])
            ({ mappingId := mid, success := false, photosAdded := 0, photosRemoved := 0,
               photosSkipped := 0, errors := [] }, st)).2 with
          tempFiles := [] })
      photos hsh fsize rfl (fun p _ => rfl)
      (fun p hp => Or.inr (by
        simp only [device_tempNil, scenarioEnv_devicePath]
        exact H1 p hp))
      (fun _ => rfl)
      rfl
      rfl
      (fun sp hsp => by
        have hsp2 : sp ∈ getSyncedPhotos ((truncatePhotos mapping.maxPhotos photos).foldl
            (syncOnePhoto (scenarioEnv mapping base photos
              (fun p => okBehavior hsh fsize none p) (fun _ => true)) base mid [])
            ({ mappingId := mid, success := false, photosAdded := 0, photosRemoved := 0,
               photosSkipped := 0, errors := [] }, st)).2 mid := by
          simpa using hsp
        rcases H3 sp hsp2 with hin | hin
        · rw [hledger] at hin
          simp at hin
        · exact hin)]
  refine ⟨rfl, rfl, by simp⟩

/-- Witness for C7: mirror mapping over three photos, two of them with
identical processed bytes, run twice from a fresh state. -/
theorem c7_witness :
    (executeSync (scenarioEnv mapMirror base0 [pA, pB, pC]
          (fun p => okBehavior hshDup fsz none p) (fun _ => true)) "m1"
        (executeSync (scenarioEnv mapMirror base0 [pA, pB, pC]
          (fun p => okBehavior hshDup fsz none p) (fun _ => true)) "m1"
          stEmpty).2).1.photosAdded = 0 ∧
    (executeSync (scenarioEnv mapMirror base0 [pA, pB, pC]
          (fun p => okBehavior hshDup fsz none p) (fun _ => true)) "m1"
        (executeSync (scenarioEnv mapMirror base0 [pA, pB, pC]
          (fun p => okBehavior hshDup fsz none p) (fun _ => true)) "m1"
          stEmpty).2).1.photosRemoved = 0 ∧
    (executeSync (scenarioEnv mapMirror base0 [pA, pB, pC]
          (fun p => okBehavior hshDup fsz none p) (fun _ => true)) "m1"
        (executeSync (scenarioEnv mapMirror base0 [pA, pB, pC]
          (fun p => okBehavior hshDup fsz none p) (fun _ => true)) "m1"
          stEmpty).2).1.photosSkipped
      = (truncatePhotos mapMirror.maxPhotos [pA, pB, pC]).length :=
  c7_second_run_idempotent mapMirror base0 "m1" [pA, pB, pC] hshDup fsz stEmpty rfl
    (by decide) (by decide) (by decide)

end FrameConnect
